import Mathlib

/-!
Shallow embedding of an NES emulator core (TypeScript) in Lean 4, together
with theorems settling specification claims about it.  Machine bytes and
words are modelled as `Nat` with explicit masking; JavaScript's 32-bit
bitwise operations are modelled on `Nat` with explicit `&&& (2^32 - 1)`
where the source relies on them.  TypeScript classes become structures and
methods become functions returning updated structures.
-/

namespace NES

set_option maxRecDepth 4000
set_option maxHeartbeats 1000000

/-- Model of the JavaScript idiom `x & ~mask` (bitwise AND with the 32-bit
complement of `mask`): keeps the low 32 bits of `x` outside `mask`. -/
def jsAndNot (x mask : Nat) : Nat := x &&& ((2 ^ 32 - 1) ^^^ mask)

/-! ## Controller (src/controller.ts) -/

structure Controller where
  buttons : Nat → Bool
  shiftRegister : Nat
  strobe : Bool

/-- The shift-register value built by `reloadShiftRegister` of
controller.ts: bit i is set from `buttons[i]`, i = 0..7. -/
def reloadValue (buttons : Nat → Bool) : Nat :=
  (List.range 8).foldl (fun sr i => if buttons i then sr ||| (1 <<< i) else sr) 0

/-- `reloadShiftRegister` of controller.ts. -/
def Controller.reloadShiftRegister (c : Controller) : Controller :=
  { c with shiftRegister := reloadValue c.buttons }

/-- `write` of controller.ts: latch strobe from bit 0; on strobe high reload. -/
def Controller.write (c : Controller) (value : Nat) : Controller :=
  let c := { c with strobe := decide (value &&& 1 ≠ 0) }
  if c.strobe then c.reloadShiftRegister else c

/-- `read` of controller.ts: returns the produced bit and the next state. -/
def Controller.read (c : Controller) : Nat × Controller :=
  if c.strobe then
    let c := c.reloadShiftRegister
    (c.shiftRegister &&& 1, c)
  else
    let result := c.shiftRegister &&& 1
    let c := { c with shiftRegister := (c.shiftRegister >>> 1) ||| 0x80 }
    (result, c)

/-- State of the controller after `k` calls to `read()`. -/
def Controller.readStateN (c : Controller) : Nat → Controller
  | 0 => c
  | k + 1 => ((c.readStateN k).read).2

/-- Value returned by the `(k+1)`-st call to `read()` (0-indexed: `k = 0`
is the first read). -/
def Controller.readOutN (c : Controller) (k : Nat) : Nat := ((c.readStateN k).read).1

/-- Button array built from eight booleans in controller order
A, B, Select, Start, Up, Down, Left, Right. -/
def buttons8 (b0 b1 b2 b3 b4 b5 b6 b7 : Bool) : Nat → Bool :=
  fun i => [b0, b1, b2, b3, b4, b5, b6, b7].getD i false

/-! ## Mappers (src/mapper/mapper.ts, mapper0.ts, mapper4.ts, src/types.ts) -/

/-- `MirrorMode` enum of types.ts. -/
inductive MirrorMode
  | Horizontal
  | Vertical
  | SingleScreenLower
  | SingleScreenUpper
  | FourScreen
deriving DecidableEq

/-- `RomInfo` of rom.ts (the parsed cartridge descriptor). -/
structure RomInfo where
  prgRom : List Nat
  chrRom : List Nat
  mapper : Nat
  mirrorMode : MirrorMode
  hasBatteryRam : Bool
  chrIsRam : Bool

/-- Closure state of `createMapper0` (mapper0.ts). -/
structure Mapper0 where
  prgRom : List Nat
  chrRom : List Nat
  chrIsRam : Bool
  mirrorMode : MirrorMode
  prgRam : Nat → Nat
  prgMask : Nat

/-- `createMapper0` of mapper0.ts (construction only). -/
def createMapper0 (romInfo : RomInfo) : Mapper0 :=
  { prgRom := romInfo.prgRom
    chrRom := romInfo.chrRom
    chrIsRam := romInfo.chrIsRam
    mirrorMode := romInfo.mirrorMode
    prgRam := fun _ => 0
    prgMask := romInfo.prgRom.length - 1 }

/-- Closure state of `createMapper4` (mapper4.ts).  The `Int32Array` bank
offset tables become functions from the window index. -/
structure Mapper4 where
  prgRom : List Nat
  chrRom : List Nat
  chrIsRam : Bool
  prgRam : Nat → Nat
  prgBankCount : Nat
  chrBankCount : Nat
  bankRegisters : Nat → Nat
  bankSelect : Nat
  mirrorMode : MirrorMode
  headerMirrorMode : MirrorMode
  prgRamEnable : Bool
  irqLatch : Nat
  irqCounter : Nat
  irqReloadPending : Bool
  irqEnabled : Bool
  irqActive : Bool
  prgOffsets : Nat → Nat
  chrOffsets : Nat → Nat

/-- `updatePrgOffsets` of mapper4.ts. -/
def Mapper4.updatePrgOffsets (m : Mapper4) : Mapper4 :=
  let prgMode := (m.bankSelect >>> 6) &&& 1
  let secondToLast := (m.prgBankCount - 2) * 0x2000
  let last := (m.prgBankCount - 1) * 0x2000
  if prgMode = 0 then
    { m with prgOffsets := fun b =>
        if b = 0 then (m.bankRegisters 6 % m.prgBankCount) * 0x2000
        else if b = 1 then (m.bankRegisters 7 % m.prgBankCount) * 0x2000
        else if b = 2 then secondToLast
        else if b = 3 then last
        else m.prgOffsets b }
  else
    { m with prgOffsets := fun b =>
        if b = 0 then secondToLast
        else if b = 1 then (m.bankRegisters 7 % m.prgBankCount) * 0x2000
        else if b = 2 then (m.bankRegisters 6 % m.prgBankCount) * 0x2000
        else if b = 3 then last
        else m.prgOffsets b }

/-- `updateChrOffsets` of mapper4.ts. -/
def Mapper4.updateChrOffsets (m : Mapper4) : Mapper4 :=
  let chrInversion := (m.bankSelect >>> 7) &&& 1
  if chrInversion = 0 then
    { m with chrOffsets := fun b =>
        if b = 0 then ((m.bankRegisters 0 &&& 0xFE) % m.chrBankCount) * 0x400
        else if b = 1 then ((m.bankRegisters 0 ||| 0x01) % m.chrBankCount) * 0x400
        else if b = 2 then ((m.bankRegisters 1 &&& 0xFE) % m.chrBankCount) * 0x400
        else if b = 3 then ((m.bankRegisters 1 ||| 0x01) % m.chrBankCount) * 0x400
        else if b = 4 then (m.bankRegisters 2 % m.chrBankCount) * 0x400
        else if b = 5 then (m.bankRegisters 3 % m.chrBankCount) * 0x400
        else if b = 6 then (m.bankRegisters 4 % m.chrBankCount) * 0x400
        else if b = 7 then (m.bankRegisters 5 % m.chrBankCount) * 0x400
        else m.chrOffsets b }
  else
    { m with chrOffsets := fun b =>
        if b = 0 then (m.bankRegisters 2 % m.chrBankCount) * 0x400
        else if b = 1 then (m.bankRegisters 3 % m.chrBankCount) * 0x400
        else if b = 2 then (m.bankRegisters 4 % m.chrBankCount) * 0x400
        else if b = 3 then (m.bankRegisters 5 % m.chrBankCount) * 0x400
        else if b = 4 then ((m.bankRegisters 0 &&& 0xFE) % m.chrBankCount) * 0x400
        else if b = 5 then ((m.bankRegisters 0 ||| 0x01) % m.chrBankCount) * 0x400
        else if b = 6 then ((m.bankRegisters 1 &&& 0xFE) % m.chrBankCount) * 0x400
        else if b = 7 then ((m.bankRegisters 1 ||| 0x01) % m.chrBankCount) * 0x400
        else m.chrOffsets b }

/-- `cpuWrite` of mapper4.ts. -/
def Mapper4.cpuWrite (m : Mapper4) (address value : Nat) : Mapper4 :=
  if 0x8000 ≤ address then
    let isEven := address &&& 1 = 0
    if address < 0xA000 then
      if isEven then
        Mapper4.updateChrOffsets (Mapper4.updatePrgOffsets { m with bankSelect := value })
      else
        let reg := m.bankSelect &&& 0x07
        let m := { m with bankRegisters := fun r => if r = reg then value else m.bankRegisters r }
        if reg < 6 then m.updateChrOffsets else m.updatePrgOffsets
    else if address < 0xC000 then
      if isEven then
        if m.headerMirrorMode ≠ MirrorMode.FourScreen then
          { m with mirrorMode := if value &&& 1 ≠ 0 then .Horizontal else .Vertical }
        else m
      else
        { m with prgRamEnable := decide (value &&& 0x80 ≠ 0) }
    else if address < 0xE000 then
      if isEven then
        { m with irqLatch := value }
      else
        { m with irqCounter := 0, irqReloadPending := true }
    else
      if isEven then
        { m with irqEnabled := false, irqActive := false }
      else
        { m with irqEnabled := true }
  else if 0x6000 ≤ address then
    if m.prgRamEnable then
      { m with prgRam := fun a => if a = address - 0x6000 then value else m.prgRam a }
    else m
  else m

/-- `scanlineTick` of mapper4.ts (the MMC3 scanline IRQ counter). -/
def Mapper4.scanlineTick (m : Mapper4) : Mapper4 :=
  let m :=
    if m.irqCounter = 0 ∨ m.irqReloadPending then
      { m with irqCounter := m.irqLatch, irqReloadPending := false }
    else
      { m with irqCounter := m.irqCounter - 1 }
  if m.irqCounter = 0 ∧ m.irqEnabled then { m with irqActive := true } else m

/-- `irqPending` of mapper4.ts. -/
def Mapper4.irqPending (m : Mapper4) : Bool := m.irqActive

/-- State of the MMC3 after `k` scanline ticks. -/
def Mapper4.scanlineTickN (m : Mapper4) : Nat → Mapper4
  | 0 => m
  | k + 1 => (m.scanlineTickN k).scanlineTick

/-- `createMapper4` of mapper4.ts (construction). -/
def createMapper4 (romInfo : RomInfo) : Mapper4 :=
  let m : Mapper4 :=
    { prgRom := romInfo.prgRom
      chrRom := romInfo.chrRom
      chrIsRam := romInfo.chrIsRam
      prgRam := fun _ => 0
      prgBankCount := romInfo.prgRom.length / 0x2000
      chrBankCount := romInfo.chrRom.length / 0x400
      bankRegisters := fun _ => 0
      bankSelect := 0
      mirrorMode := romInfo.mirrorMode
      headerMirrorMode := romInfo.mirrorMode
      prgRamEnable := true
      irqLatch := 0
      irqCounter := 0
      irqReloadPending := false
      irqEnabled := false
      irqActive := false
      prgOffsets := fun _ => 0
      chrOffsets := fun _ => 0 }
  (m.updatePrgOffsets).updateChrOffsets

/-- Result of `createMapper` (mapper.ts): one of the constructed mappers. -/
inductive MapperImpl
  | mapper0 (m : Mapper0)
  | mapper4 (m : Mapper4)

/-- `createMapper` of mapper.ts: dispatch on the mapper number; the
`default` branch throws `Unsupported mapper: N`. -/
def createMapper (romInfo : RomInfo) : Except String MapperImpl :=
  match romInfo.mapper with
  | 0 => .ok (.mapper0 (createMapper0 romInfo))
  | 4 => .ok (.mapper4 (createMapper4 romInfo))
  | n =>
    let msg := "Unsupported mapper: " ++ toString n
    .error msg

/-- The `makeRomInfo()` cartridge descriptor of mapper1.test.ts with its
ROM contents shrunk to empty lists (ROM bytes do not affect `createMapper`
dispatch): mapper number 1, horizontal mirroring. -/
def mapper1RomInfo : RomInfo :=
  { prgRom := []
    chrRom := []
    mapper := 1
    mirrorMode := .Horizontal
    hasBatteryRam := false
    chrIsRam := false }

/-- A mapper-0 descriptor (integration test configuration, ROM bytes shrunk). -/
def mapper0RomInfo : RomInfo :=
  { mapper1RomInfo with mapper := 0 }

/-- A mapper-4 descriptor (mapper4 test configuration, ROM bytes shrunk). -/
def mapper4RomInfo : RomInfo :=
  { mapper1RomInfo with mapper := 4, mirrorMode := .Vertical }

/-! ## CPU (src/cpu/cpu.ts, addressing.ts, instructions.ts, opcodes.ts) -/

namespace StatusFlag

def Carry : Nat := 0x01
def Zero : Nat := 0x02
def InterruptDisable : Nat := 0x04
def Decimal : Nat := 0x08
def Break : Nat := 0x10
def Unused : Nat := 0x20
def Overflow : Nat := 0x40
def Negative : Nat := 0x80

end StatusFlag

/-- Register file and interrupt bookkeeping of the `CPU` class (cpu.ts). -/
structure CPU where
  a : Nat
  x : Nat
  y : Nat
  sp : Nat
  pc : Nat
  status : Nat
  totalCycles : Nat
  stallCyclesCount : Nat
  nmiPending : Bool
  irqPending : Bool

/-- `getFlag` of cpu.ts. -/
def CPU.getFlag (c : CPU) (flag : Nat) : Bool := decide (c.status &&& flag ≠ 0)

/-- `setFlag` of cpu.ts; the clear branch is JS `status &= ~flag`. -/
def CPU.setFlag (c : CPU) (flag : Nat) (value : Bool) : CPU :=
  if value then { c with status := c.status ||| flag }
  else { c with status := jsAndNot c.status flag }

/-- `updateZN` of cpu.ts. -/
def CPU.updateZN (c : CPU) (value : Nat) : CPU :=
  let c := c.setFlag StatusFlag.Zero (decide (value &&& 0xFF = 0))
  c.setFlag StatusFlag.Negative (decide (value &&& 0x80 ≠ 0))

/-- The CPU wired to its memory, as in the cpu.test.ts harness:
`cpu.read = (addr) => memory[addr & 0xFFFF]` and the matching write. -/
structure Machine where
  cpu : CPU
  mem : Nat → Nat

def Machine.read (m : Machine) (addr : Nat) : Nat := m.mem (addr &&& 0xFFFF)

def Machine.write (m : Machine) (addr value : Nat) : Machine :=
  { m with mem := fun a => if a = (addr &&& 0xFFFF) then value else m.mem a }

/-- `pushByte` of cpu.ts; JS `(sp - 1) & 0xFF` is `(sp + 0xFF) &&& 0xFF`
on naturals (identical for every non-negative `sp`). -/
def Machine.pushByte (m : Machine) (value : Nat) : Machine :=
  let m := m.write (0x0100 ||| m.cpu.sp) value
  { m with cpu := { m.cpu with sp := (m.cpu.sp + 0xFF) &&& 0xFF } }

/-- `pullByte` of cpu.ts. -/
def Machine.pullByte (m : Machine) : Nat × Machine :=
  let m := { m with cpu := { m.cpu with sp := (m.cpu.sp + 1) &&& 0xFF } }
  (m.read (0x0100 ||| m.cpu.sp), m)

/-- `pushWord` of cpu.ts. -/
def Machine.pushWord (m : Machine) (value : Nat) : Machine :=
  let m := m.pushByte ((value >>> 8) &&& 0xFF)
  m.pushByte (value &&& 0xFF)

/-- `pullWord` of cpu.ts. -/
def Machine.pullWord (m : Machine) : Nat × Machine :=
  let (lo, m) := m.pullByte
  let (hi, m) := m.pullByte
  ((hi <<< 8) ||| lo, m)

/-- `AddressingMode` enum of addressing.ts. -/
inductive AddressingMode
  | Implied
  | Accumulator
  | Immediate
  | ZeroPage
  | ZeroPageX
  | ZeroPageY
  | Absolute
  | AbsoluteX
  | AbsoluteY
  | Indirect
  | IndexedIndirect
  | IndirectIndexed
  | Relative
deriving DecidableEq

/-- `AddressResult` of addressing.ts. -/
structure AddressResult where
  address : Nat
  pageCrossed : Bool

/-- `resolveAddress` of cpu.ts: computes the effective address, advancing
the PC past the operand bytes. -/
def CPU.resolveAddress (m : Machine) (mode : AddressingMode) : AddressResult × Machine :=
  match mode with
  | .Implied | .Accumulator => ({ address := 0, pageCrossed := false }, m)
  | .Immediate =>
    let addr := m.cpu.pc
    let m := { m with cpu := { m.cpu with pc := (m.cpu.pc + 1) &&& 0xFFFF } }
    ({ address := addr, pageCrossed := false }, m)
  | .ZeroPage =>
    let addr := m.read m.cpu.pc
    let m := { m with cpu := { m.cpu with pc := (m.cpu.pc + 1) &&& 0xFFFF } }
    ({ address := addr, pageCrossed := false }, m)
  | .ZeroPageX =>
    let base := m.read m.cpu.pc
    let m := { m with cpu := { m.cpu with pc := (m.cpu.pc + 1) &&& 0xFFFF } }
    ({ address := (base + m.cpu.x) &&& 0xFF, pageCrossed := false }, m)
  | .ZeroPageY =>
    let base := m.read m.cpu.pc
    let m := { m with cpu := { m.cpu with pc := (m.cpu.pc + 1) &&& 0xFFFF } }
    ({ address := (base + m.cpu.y) &&& 0xFF, pageCrossed := false }, m)
  | .Absolute =>
    let lo := m.read m.cpu.pc
    let m := { m with cpu := { m.cpu with pc := (m.cpu.pc + 1) &&& 0xFFFF } }
    let hi := m.read m.cpu.pc
    let m := { m with cpu := { m.cpu with pc := (m.cpu.pc + 1) &&& 0xFFFF } }
    ({ address := (hi <<< 8) ||| lo, pageCrossed := false }, m)
  | .AbsoluteX =>
    let lo := m.read m.cpu.pc
    let m := { m with cpu := { m.cpu with pc := (m.cpu.pc + 1) &&& 0xFFFF } }
    let hi := m.read m.cpu.pc
    let m := { m with cpu := { m.cpu with pc := (m.cpu.pc + 1) &&& 0xFFFF } }
    let base := (hi <<< 8) ||| lo
    let addr := (base + m.cpu.x) &&& 0xFFFF
    ({ address := addr, pageCrossed := decide ((base &&& 0xFF00) ≠ (addr &&& 0xFF00)) }, m)
  | .AbsoluteY =>
    let lo := m.read m.cpu.pc
    let m := { m with cpu := { m.cpu with pc := (m.cpu.pc + 1) &&& 0xFFFF } }
    let hi := m.read m.cpu.pc
    let m := { m with cpu := { m.cpu with pc := (m.cpu.pc + 1) &&& 0xFFFF } }
    let base := (hi <<< 8) ||| lo
    let addr := (base + m.cpu.y) &&& 0xFFFF
    ({ address := addr, pageCrossed := decide ((base &&& 0xFF00) ≠ (addr &&& 0xFF00)) }, m)
  | .Indirect =>
    let lo := m.read m.cpu.pc
    let m := { m with cpu := { m.cpu with pc := (m.cpu.pc + 1) &&& 0xFFFF } }
    let hi := m.read m.cpu.pc
    let m := { m with cpu := { m.cpu with pc := (m.cpu.pc + 1) &&& 0xFFFF } }
    let pointer := (hi <<< 8) ||| lo
    let effLo := m.read pointer
    let effHi := m.read ((pointer &&& 0xFF00) ||| ((pointer + 1) &&& 0x00FF))
    ({ address := (effHi <<< 8) ||| effLo, pageCrossed := false }, m)
  | .IndexedIndirect =>
    let base := m.read m.cpu.pc
    let m := { m with cpu := { m.cpu with pc := (m.cpu.pc + 1) &&& 0xFFFF } }
    let pointer := (base + m.cpu.x) &&& 0xFF
    let lo := m.read pointer
    let hi := m.read ((pointer + 1) &&& 0xFF)
    ({ address := (hi <<< 8) ||| lo, pageCrossed := false }, m)
  | .IndirectIndexed =>
    let base := m.read m.cpu.pc
    let m := { m with cpu := { m.cpu with pc := (m.cpu.pc + 1) &&& 0xFFFF } }
    let lo := m.read base
    let hi := m.read ((base + 1) &&& 0xFF)
    let pointer := (hi <<< 8) ||| lo
    let addr := (pointer + m.cpu.y) &&& 0xFFFF
    ({ address := addr, pageCrossed := decide ((pointer &&& 0xFF00) ≠ (addr &&& 0xFF00)) }, m)
  | .Relative =>
    let offset := m.read m.cpu.pc
    let m := { m with cpu := { m.cpu with pc := (m.cpu.pc + 1) &&& 0xFFFF } }
    let addr :=
      if 0x80 ≤ offset then (m.cpu.pc + offset + 0xFF00) &&& 0xFFFF
      else (m.cpu.pc + offset) &&& 0xFFFF
    ({ address := addr, pageCrossed := decide ((m.cpu.pc &&& 0xFF00) ≠ (addr &&& 0xFF00)) }, m)

/-- `InstructionContext` of instructions.ts; `cpu`, `read` and `write`
are represented by the embedded machine. -/
structure InstructionContext where
  machine : Machine
  address : Nat
  mode : AddressingMode
  pageCrossed : Bool
  extraCycles : Nat

/-- `compare` helper of instructions.ts.  JS `(register - value) & 0xFFFF`
may act on a negative difference; adding a multiple of 0x10000 first gives
the same 16-bit result on naturals for every input. -/
def compare (c : CPU) (register value : Nat) : CPU :=
  let result := ((register + 0x10000 * (value / 0x10000 + 1)) - value) &&& 0xFFFF
  let c := c.setFlag StatusFlag.Carry (decide (value ≤ register))
  let c := c.setFlag StatusFlag.Zero (decide (result &&& 0xFF = 0))
  c.setFlag StatusFlag.Negative (decide (result &&& 0x80 ≠ 0))

/-- `branch` helper of instructions.ts. -/
def branch (ctx : InstructionContext) (condition : Bool) : InstructionContext :=
  if condition then
    let ctx := { ctx with extraCycles := ctx.extraCycles + 1 }
    let ctx := if ctx.pageCrossed then { ctx with extraCycles := ctx.extraCycles + 1 } else ctx
    { ctx with machine := { ctx.machine with cpu := { ctx.machine.cpu with pc := ctx.address } } }
  else ctx

def adc (ctx : InstructionContext) : InstructionContext :=
  let val := ctx.machine.read ctx.address
  let carry := if ctx.machine.cpu.getFlag StatusFlag.Carry then 1 else 0
  let sum := ctx.machine.cpu.a + val + carry
  let cpu := ctx.machine.cpu.setFlag StatusFlag.Carry (decide (0xFF < sum))
  let cpu := cpu.setFlag StatusFlag.Overflow
    (decide ((ctx.machine.cpu.a ^^^ sum) &&& (val ^^^ sum) &&& 0x80 ≠ 0))
  let cpu := { cpu with a := sum &&& 0xFF }
  let cpu := cpu.updateZN cpu.a
  { ctx with machine := { ctx.machine with cpu := cpu } }

def and (ctx : InstructionContext) : InstructionContext :=
  let cpu := { ctx.machine.cpu with a := ctx.machine.cpu.a &&& ctx.machine.read ctx.address }
  let cpu := cpu.updateZN cpu.a
  { ctx with machine := { ctx.machine with cpu := cpu } }

def asl (ctx : InstructionContext) : InstructionContext :=
  if ctx.mode = AddressingMode.Accumulator then
    let cpu := ctx.machine.cpu.setFlag StatusFlag.Carry (decide (ctx.machine.cpu.a &&& 0x80 ≠ 0))
    let cpu := { cpu with a := (cpu.a <<< 1) &&& 0xFF }
    let cpu := cpu.updateZN cpu.a
    { ctx with machine := { ctx.machine with cpu := cpu } }
  else
    let val := ctx.machine.read ctx.address
    let cpu := ctx.machine.cpu.setFlag StatusFlag.Carry (decide (val &&& 0x80 ≠ 0))
    let val := (val <<< 1) &&& 0xFF
    let m := { ctx.machine with cpu := cpu }
    let m := m.write ctx.address val
    let m := { m with cpu := m.cpu.updateZN val }
    { ctx with machine := m }

def bcc (ctx : InstructionContext) : InstructionContext :=
  branch ctx (!(ctx.machine.cpu.getFlag StatusFlag.Carry))

def bcs (ctx : InstructionContext) : InstructionContext :=
  branch ctx (ctx.machine.cpu.getFlag StatusFlag.Carry)

def beq (ctx : InstructionContext) : InstructionContext :=
  branch ctx (ctx.machine.cpu.getFlag StatusFlag.Zero)

def bit (ctx : InstructionContext) : InstructionContext :=
  let val := ctx.machine.read ctx.address
  let cpu := ctx.machine.cpu.setFlag StatusFlag.Zero (decide (ctx.machine.cpu.a &&& val = 0))
  let cpu := cpu.setFlag StatusFlag.Overflow (decide (val &&& 0x40 ≠ 0))
  let cpu := cpu.setFlag StatusFlag.Negative (decide (val &&& 0x80 ≠ 0))
  { ctx with machine := { ctx.machine with cpu := cpu } }

def bmi (ctx : InstructionContext) : InstructionContext :=
  branch ctx (ctx.machine.cpu.getFlag StatusFlag.Negative)

def bne (ctx : InstructionContext) : InstructionContext :=
  branch ctx (!(ctx.machine.cpu.getFlag StatusFlag.Zero))

def bpl (ctx : InstructionContext) : InstructionContext :=
  branch ctx (!(ctx.machine.cpu.getFlag StatusFlag.Negative))

def brk (ctx : InstructionContext) : InstructionContext :=
  let m := ctx.machine
  let m := { m with cpu := { m.cpu with pc := (m.cpu.pc + 1) &&& 0xFFFF } }
  let m := m.pushWord m.cpu.pc
  let m := m.pushByte (m.cpu.status ||| 0x30)
  let m := { m with cpu := m.cpu.setFlag StatusFlag.InterruptDisable true }
  let m := { m with cpu := { m.cpu with pc := m.read 0xFFFE ||| (m.read 0xFFFF <<< 8) } }
  { ctx with machine := m }

def bvc (ctx : InstructionContext) : InstructionContext :=
  branch ctx (!(ctx.machine.cpu.getFlag StatusFlag.Overflow))

def bvs (ctx : InstructionContext) : InstructionContext :=
  branch ctx (ctx.machine.cpu.getFlag StatusFlag.Overflow)

def clc (ctx : InstructionContext) : InstructionContext :=
  { ctx with machine := { ctx.machine with cpu := ctx.machine.cpu.setFlag StatusFlag.Carry false } }

def cld (ctx : InstructionContext) : InstructionContext :=
  { ctx with machine := { ctx.machine with cpu := ctx.machine.cpu.setFlag StatusFlag.Decimal false } }

def cli (ctx : InstructionContext) : InstructionContext :=
  { ctx with machine :=
      { ctx.machine with cpu := ctx.machine.cpu.setFlag StatusFlag.InterruptDisable false } }

def clv (ctx : InstructionContext) : InstructionContext :=
  { ctx with machine := { ctx.machine with cpu := ctx.machine.cpu.setFlag StatusFlag.Overflow false } }

def cmp (ctx : InstructionContext) : InstructionContext :=
  let val := ctx.machine.read ctx.address
  { ctx with machine := { ctx.machine with cpu := compare ctx.machine.cpu ctx.machine.cpu.a val } }

def cpx (ctx : InstructionContext) : InstructionContext :=
  let val := ctx.machine.read ctx.address
  { ctx with machine := { ctx.machine with cpu := compare ctx.machine.cpu ctx.machine.cpu.x val } }

def cpy (ctx : InstructionContext) : InstructionContext :=
  let val := ctx.machine.read ctx.address
  { ctx with machine := { ctx.machine with cpu := compare ctx.machine.cpu ctx.machine.cpu.y val } }

def dec (ctx : InstructionContext) : InstructionContext :=
  let val := (ctx.machine.read ctx.address + 0xFF) &&& 0xFF
  let m := ctx.machine.write ctx.address val
  let m := { m with cpu := m.cpu.updateZN val }
  { ctx with machine := m }

def dex (ctx : InstructionContext) : InstructionContext :=
  let cpu := { ctx.machine.cpu with x := (ctx.machine.cpu.x + 0xFF) &&& 0xFF }
  let cpu := cpu.updateZN cpu.x
  { ctx with machine := { ctx.machine with cpu := cpu } }

def dey (ctx : InstructionContext) : InstructionContext :=
  let cpu := { ctx.machine.cpu with y := (ctx.machine.cpu.y + 0xFF) &&& 0xFF }
  let cpu := cpu.updateZN cpu.y
  { ctx with machine := { ctx.machine with cpu := cpu } }

def eor (ctx : InstructionContext) : InstructionContext :=
  let cpu := { ctx.machine.cpu with a := ctx.machine.cpu.a ^^^ ctx.machine.read ctx.address }
  let cpu := cpu.updateZN cpu.a
  { ctx with machine := { ctx.machine with cpu := cpu } }

def inc (ctx : InstructionContext) : InstructionContext :=
  let val := (ctx.machine.read ctx.address + 1) &&& 0xFF
  let m := ctx.machine.write ctx.address val
  let m := { m with cpu := m.cpu.updateZN val }
  { ctx with machine := m }

def inx (ctx : InstructionContext) : InstructionContext :=
  let cpu := { ctx.machine.cpu with x := (ctx.machine.cpu.x + 1) &&& 0xFF }
  let cpu := cpu.updateZN cpu.x
  { ctx with machine := { ctx.machine with cpu := cpu } }

def iny (ctx : InstructionContext) : InstructionContext :=
  let cpu := { ctx.machine.cpu with y := (ctx.machine.cpu.y + 1) &&& 0xFF }
  let cpu := cpu.updateZN cpu.y
  { ctx with machine := { ctx.machine with cpu := cpu } }

def jmp (ctx : InstructionContext) : InstructionContext :=
  { ctx with machine := { ctx.machine with cpu := { ctx.machine.cpu with pc := ctx.address } } }

def jsr (ctx : InstructionContext) : InstructionContext :=
  let m := ctx.machine.pushWord ((ctx.machine.cpu.pc + 0xFFFF) &&& 0xFFFF)
  { ctx with machine := { m with cpu := { m.cpu with pc := ctx.address } } }

def lda (ctx : InstructionContext) : InstructionContext :=
  let cpu := { ctx.machine.cpu with a := ctx.machine.read ctx.address }
  let cpu := cpu.updateZN cpu.a
  { ctx with machine := { ctx.machine with cpu := cpu } }

def ldx (ctx : InstructionContext) : InstructionContext :=
  let cpu := { ctx.machine.cpu with x := ctx.machine.read ctx.address }
  let cpu := cpu.updateZN cpu.x
  { ctx with machine := { ctx.machine with cpu := cpu } }

def ldy (ctx : InstructionContext) : InstructionContext :=
  let cpu := { ctx.machine.cpu with y := ctx.machine.read ctx.address }
  let cpu := cpu.updateZN cpu.y
  { ctx with machine := { ctx.machine with cpu := cpu } }

def lsr (ctx : InstructionContext) : InstructionContext :=
  if ctx.mode = AddressingMode.Accumulator then
    let cpu := ctx.machine.cpu.setFlag StatusFlag.Carry (decide (ctx.machine.cpu.a &&& 0x01 ≠ 0))
    let cpu := { cpu with a := (cpu.a >>> 1) &&& 0xFF }
    let cpu := cpu.updateZN cpu.a
    { ctx with machine := { ctx.machine with cpu := cpu } }
  else
    let val := ctx.machine.read ctx.address
    let cpu := ctx.machine.cpu.setFlag StatusFlag.Carry (decide (val &&& 0x01 ≠ 0))
    let val := (val >>> 1) &&& 0xFF
    let m := { ctx.machine with cpu := cpu }
    let m := m.write ctx.address val
    let m := { m with cpu := m.cpu.updateZN val }
    { ctx with machine := m }

def nop (ctx : InstructionContext) : InstructionContext := ctx

def ora (ctx : InstructionContext) : InstructionContext :=
  let cpu := { ctx.machine.cpu with a := ctx.machine.cpu.a ||| ctx.machine.read ctx.address }
  let cpu := cpu.updateZN cpu.a
  { ctx with machine := { ctx.machine with cpu := cpu } }

def pha (ctx : InstructionContext) : InstructionContext :=
  { ctx with machine := ctx.machine.pushByte ctx.machine.cpu.a }

def php (ctx : InstructionContext) : InstructionContext :=
  { ctx with machine := ctx.machine.pushByte (ctx.machine.cpu.status ||| 0x30) }

def pla (ctx : InstructionContext) : InstructionContext :=
  let (v, m) := ctx.machine.pullByte
  let cpu := { m.cpu with a := v }
  let cpu := cpu.updateZN cpu.a
  { ctx with machine := { m with cpu := cpu } }

def plp (ctx : InstructionContext) : InstructionContext :=
  let (v, m) := ctx.machine.pullByte
  { ctx with machine := { m with cpu := { m.cpu with status := jsAndNot v 0x10 ||| 0x20 } } }

def rol (ctx : InstructionContext) : InstructionContext :=
  let oldCarry := if ctx.machine.cpu.getFlag StatusFlag.Carry then 1 else 0
  if ctx.mode = AddressingMode.Accumulator then
    let cpu := ctx.machine.cpu.setFlag StatusFlag.Carry (decide (ctx.machine.cpu.a &&& 0x80 ≠ 0))
    let cpu := { cpu with a := ((cpu.a <<< 1) ||| oldCarry) &&& 0xFF }
    let cpu := cpu.updateZN cpu.a
    { ctx with machine := { ctx.machine with cpu := cpu } }
  else
    let val := ctx.machine.read ctx.address
    let cpu := ctx.machine.cpu.setFlag StatusFlag.Carry (decide (val &&& 0x80 ≠ 0))
    let val := ((val <<< 1) ||| oldCarry) &&& 0xFF
    let m := { ctx.machine with cpu := cpu }
    let m := m.write ctx.address val
    let m := { m with cpu := m.cpu.updateZN val }
    { ctx with machine := m }

def ror (ctx : InstructionContext) : InstructionContext :=
  let oldCarry := if ctx.machine.cpu.getFlag StatusFlag.Carry then 0x80 else 0
  if ctx.mode = AddressingMode.Accumulator then
    let cpu := ctx.machine.cpu.setFlag StatusFlag.Carry (decide (ctx.machine.cpu.a &&& 0x01 ≠ 0))
    let cpu := { cpu with a := ((cpu.a >>> 1) ||| oldCarry) &&& 0xFF }
    let cpu := cpu.updateZN cpu.a
    { ctx with machine := { ctx.machine with cpu := cpu } }
  else
    let val := ctx.machine.read ctx.address
    let cpu := ctx.machine.cpu.setFlag StatusFlag.Carry (decide (val &&& 0x01 ≠ 0))
    let val := ((val >>> 1) ||| oldCarry) &&& 0xFF
    let m := { ctx.machine with cpu := cpu }
    let m := m.write ctx.address val
    let m := { m with cpu := m.cpu.updateZN val }
    { ctx with machine := m }

def rti (ctx : InstructionContext) : InstructionContext :=
  let (v, m) := ctx.machine.pullByte
  let m := { m with cpu := { m.cpu with status := jsAndNot v 0x10 ||| 0x20 } }
  let (pc, m) := m.pullWord
  { ctx with machine := { m with cpu := { m.cpu with pc := pc } } }

def rts (ctx : InstructionContext) : InstructionContext :=
  let (pc, m) := ctx.machine.pullWord
  { ctx with machine := { m with cpu := { m.cpu with pc := (pc + 1) &&& 0xFFFF } } }

def sbc (ctx : InstructionContext) : InstructionContext :=
  let val := ctx.machine.read ctx.address ^^^ 0xFF
  let carry := if ctx.machine.cpu.getFlag StatusFlag.Carry then 1 else 0
  let sum := ctx.machine.cpu.a + val + carry
  let cpu := ctx.machine.cpu.setFlag StatusFlag.Carry (decide (0xFF < sum))
  let cpu := cpu.setFlag StatusFlag.Overflow
    (decide ((ctx.machine.cpu.a ^^^ sum) &&& (val ^^^ sum) &&& 0x80 ≠ 0))
  let cpu := { cpu with a := sum &&& 0xFF }
  let cpu := cpu.updateZN cpu.a
  { ctx with machine := { ctx.machine with cpu := cpu } }

def sec (ctx : InstructionContext) : InstructionContext :=
  { ctx with machine := { ctx.machine with cpu := ctx.machine.cpu.setFlag StatusFlag.Carry true } }

def sed (ctx : InstructionContext) : InstructionContext :=
  { ctx with machine := { ctx.machine with cpu := ctx.machine.cpu.setFlag StatusFlag.Decimal true } }

def sei (ctx : InstructionContext) : InstructionContext :=
  { ctx with machine :=
      { ctx.machine with cpu := ctx.machine.cpu.setFlag StatusFlag.InterruptDisable true } }

def sta (ctx : InstructionContext) : InstructionContext :=
  { ctx with machine := ctx.machine.write ctx.address ctx.machine.cpu.a }

def stx (ctx : InstructionContext) : InstructionContext :=
  { ctx with machine := ctx.machine.write ctx.address ctx.machine.cpu.x }

def sty (ctx : InstructionContext) : InstructionContext :=
  { ctx with machine := ctx.machine.write ctx.address ctx.machine.cpu.y }

def tax (ctx : InstructionContext) : InstructionContext :=
  let cpu := { ctx.machine.cpu with x := ctx.machine.cpu.a }
  let cpu := cpu.updateZN cpu.x
  { ctx with machine := { ctx.machine with cpu := cpu } }

def tay (ctx : InstructionContext) : InstructionContext :=
  let cpu := { ctx.machine.cpu with y := ctx.machine.cpu.a }
  let cpu := cpu.updateZN cpu.y
  { ctx with machine := { ctx.machine with cpu := cpu } }

def tsx (ctx : InstructionContext) : InstructionContext :=
  let cpu := { ctx.machine.cpu with x := ctx.machine.cpu.sp }
  let cpu := cpu.updateZN cpu.x
  { ctx with machine := { ctx.machine with cpu := cpu } }

def txa (ctx : InstructionContext) : InstructionContext :=
  let cpu := { ctx.machine.cpu with a := ctx.machine.cpu.x }
  let cpu := cpu.updateZN cpu.a
  { ctx with machine := { ctx.machine with cpu := cpu } }

def txs (ctx : InstructionContext) : InstructionContext :=
  { ctx with machine := { ctx.machine with cpu := { ctx.machine.cpu with sp := ctx.machine.cpu.x } } }

def tya (ctx : InstructionContext) : InstructionContext :=
  let cpu := { ctx.machine.cpu with a := ctx.machine.cpu.y }
  let cpu := cpu.updateZN cpu.a
  { ctx with machine := { ctx.machine with cpu := cpu } }

/-- `OpcodeEntry` of opcodes.ts. -/
structure OpcodeEntry where
  name : String
  execute : InstructionContext → InstructionContext
  mode : AddressingMode
  cycles : Nat
  bytes : Nat
  pageCrossPenalty : Bool

/-- The `illegalNop` entry of opcodes.ts, used to pre-fill the table. -/
def illegalNop : OpcodeEntry :=
  { name := "NOP", execute := nop, mode := .Implied, cycles := 2, bytes := 1, pageCrossPenalty := false }

/-- The 256-entry `opcodeTable` of opcodes.ts.  The table is first filled
with `illegalNop`, so lookups never observe the `null` initialiser; the
embedding is therefore a total function with `illegalNop` as default. -/
def opcodeTable (opcode : Nat) : OpcodeEntry :=
  match opcode with
  | 0x69 => { name := "ADC", execute := adc, mode := .Immediate, cycles := 2, bytes := 2, pageCrossPenalty := false }
  | 0x65 => { name := "ADC", execute := adc, mode := .ZeroPage, cycles := 3, bytes := 2, pageCrossPenalty := false }
  | 0x75 => { name := "ADC", execute := adc, mode := .ZeroPageX, cycles := 4, bytes := 2, pageCrossPenalty := false }
  | 0x6D => { name := "ADC", execute := adc, mode := .Absolute, cycles := 4, bytes := 3, pageCrossPenalty := false }
  | 0x7D => { name := "ADC", execute := adc, mode := .AbsoluteX, cycles := 4, bytes := 3, pageCrossPenalty := true }
  | 0x79 => { name := "ADC", execute := adc, mode := .AbsoluteY, cycles := 4, bytes := 3, pageCrossPenalty := true }
  | 0x61 => { name := "ADC", execute := adc, mode := .IndexedIndirect, cycles := 6, bytes := 2, pageCrossPenalty := false }
  | 0x71 => { name := "ADC", execute := adc, mode := .IndirectIndexed, cycles := 5, bytes := 2, pageCrossPenalty := true }
  | 0x29 => { name := "AND", execute := and, mode := .Immediate, cycles := 2, bytes := 2, pageCrossPenalty := false }
  | 0x25 => { name := "AND", execute := and, mode := .ZeroPage, cycles := 3, bytes := 2, pageCrossPenalty := false }
  | 0x35 => { name := "AND", execute := and, mode := .ZeroPageX, cycles := 4, bytes := 2, pageCrossPenalty := false }
  | 0x2D => { name := "AND", execute := and, mode := .Absolute, cycles := 4, bytes := 3, pageCrossPenalty := false }
  | 0x3D => { name := "AND", execute := and, mode := .AbsoluteX, cycles := 4, bytes := 3, pageCrossPenalty := true }
  | 0x39 => { name := "AND", execute := and, mode := .AbsoluteY, cycles := 4, bytes := 3, pageCrossPenalty := true }
  | 0x21 => { name := "AND", execute := and, mode := .IndexedIndirect, cycles := 6, bytes := 2, pageCrossPenalty := false }
  | 0x31 => { name := "AND", execute := and, mode := .IndirectIndexed, cycles := 5, bytes := 2, pageCrossPenalty := true }
  | 0x0A => { name := "ASL", execute := asl, mode := .Accumulator, cycles := 2, bytes := 1, pageCrossPenalty := false }
  | 0x06 => { name := "ASL", execute := asl, mode := .ZeroPage, cycles := 5, bytes := 2, pageCrossPenalty := false }
  | 0x16 => { name := "ASL", execute := asl, mode := .ZeroPageX, cycles := 6, bytes := 2, pageCrossPenalty := false }
  | 0x0E => { name := "ASL", execute := asl, mode := .Absolute, cycles := 6, bytes := 3, pageCrossPenalty := false }
  | 0x1E => { name := "ASL", execute := asl, mode := .AbsoluteX, cycles := 7, bytes := 3, pageCrossPenalty := false }
  | 0x90 => { name := "BCC", execute := bcc, mode := .Relative, cycles := 2, bytes := 2, pageCrossPenalty := false }
  | 0xB0 => { name := "BCS", execute := bcs, mode := .Relative, cycles := 2, bytes := 2, pageCrossPenalty := false }
  | 0xF0 => { name := "BEQ", execute := beq, mode := .Relative, cycles := 2, bytes := 2, pageCrossPenalty := false }
  | 0x30 => { name := "BMI", execute := bmi, mode := .Relative, cycles := 2, bytes := 2, pageCrossPenalty := false }
  | 0xD0 => { name := "BNE", execute := bne, mode := .Relative, cycles := 2, bytes := 2, pageCrossPenalty := false }
  | 0x10 => { name := "BPL", execute := bpl, mode := .Relative, cycles := 2, bytes := 2, pageCrossPenalty := false }
  | 0x50 => { name := "BVC", execute := bvc, mode := .Relative, cycles := 2, bytes := 2, pageCrossPenalty := false }
  | 0x70 => { name := "BVS", execute := bvs, mode := .Relative, cycles := 2, bytes := 2, pageCrossPenalty := false }
  | 0x24 => { name := "BIT", execute := bit, mode := .ZeroPage, cycles := 3, bytes := 2, pageCrossPenalty := false }
  | 0x2C => { name := "BIT", execute := bit, mode := .Absolute, cycles := 4, bytes := 3, pageCrossPenalty := false }
  | 0x00 => { name := "BRK", execute := brk, mode := .Implied, cycles := 7, bytes := 1, pageCrossPenalty := false }
  | 0x18 => { name := "CLC", execute := clc, mode := .Implied, cycles := 2, bytes := 1, pageCrossPenalty := false }
  | 0xD8 => { name := "CLD", execute := cld, mode := .Implied, cycles := 2, bytes := 1, pageCrossPenalty := false }
  | 0x58 => { name := "CLI", execute := cli, mode := .Implied, cycles := 2, bytes := 1, pageCrossPenalty := false }
  | 0xB8 => { name := "CLV", execute := clv, mode := .Implied, cycles := 2, bytes := 1, pageCrossPenalty := false }
  | 0xC9 => { name := "CMP", execute := cmp, mode := .Immediate, cycles := 2, bytes := 2, pageCrossPenalty := false }
  | 0xC5 => { name := "CMP", execute := cmp, mode := .ZeroPage, cycles := 3, bytes := 2, pageCrossPenalty := false }
  | 0xD5 => { name := "CMP", execute := cmp, mode := .ZeroPageX, cycles := 4, bytes := 2, pageCrossPenalty := false }
  | 0xCD => { name := "CMP", execute := cmp, mode := .Absolute, cycles := 4, bytes := 3, pageCrossPenalty := false }
  | 0xDD => { name := "CMP", execute := cmp, mode := .AbsoluteX, cycles := 4, bytes := 3, pageCrossPenalty := true }
  | 0xD9 => { name := "CMP", execute := cmp, mode := .AbsoluteY, cycles := 4, bytes := 3, pageCrossPenalty := true }
  | 0xC1 => { name := "CMP", execute := cmp, mode := .IndexedIndirect, cycles := 6, bytes := 2, pageCrossPenalty := false }
  | 0xD1 => { name := "CMP", execute := cmp, mode := .IndirectIndexed, cycles := 5, bytes := 2, pageCrossPenalty := true }
  | 0xE0 => { name := "CPX", execute := cpx, mode := .Immediate, cycles := 2, bytes := 2, pageCrossPenalty := false }
  | 0xE4 => { name := "CPX", execute := cpx, mode := .ZeroPage, cycles := 3, bytes := 2, pageCrossPenalty := false }
  | 0xEC => { name := "CPX", execute := cpx, mode := .Absolute, cycles := 4, bytes := 3, pageCrossPenalty := false }
  | 0xC0 => { name := "CPY", execute := cpy, mode := .Immediate, cycles := 2, bytes := 2, pageCrossPenalty := false }
  | 0xC4 => { name := "CPY", execute := cpy, mode := .ZeroPage, cycles := 3, bytes := 2, pageCrossPenalty := false }
  | 0xCC => { name := "CPY", execute := cpy, mode := .Absolute, cycles := 4, bytes := 3, pageCrossPenalty := false }
  | 0xC6 => { name := "DEC", execute := dec, mode := .ZeroPage, cycles := 5, bytes := 2, pageCrossPenalty := false }
  | 0xD6 => { name := "DEC", execute := dec, mode := .ZeroPageX, cycles := 6, bytes := 2, pageCrossPenalty := false }
  | 0xCE => { name := "DEC", execute := dec, mode := .Absolute, cycles := 6, bytes := 3, pageCrossPenalty := false }
  | 0xDE => { name := "DEC", execute := dec, mode := .AbsoluteX, cycles := 7, bytes := 3, pageCrossPenalty := false }
  | 0xCA => { name := "DEX", execute := dex, mode := .Implied, cycles := 2, bytes := 1, pageCrossPenalty := false }
  | 0x88 => { name := "DEY", execute := dey, mode := .Implied, cycles := 2, bytes := 1, pageCrossPenalty := false }
  | 0x49 => { name := "EOR", execute := eor, mode := .Immediate, cycles := 2, bytes := 2, pageCrossPenalty := false }
  | 0x45 => { name := "EOR", execute := eor, mode := .ZeroPage, cycles := 3, bytes := 2, pageCrossPenalty := false }
  | 0x55 => { name := "EOR", execute := eor, mode := .ZeroPageX, cycles := 4, bytes := 2, pageCrossPenalty := false }
  | 0x4D => { name := "EOR", execute := eor, mode := .Absolute, cycles := 4, bytes := 3, pageCrossPenalty := false }
  | 0x5D => { name := "EOR", execute := eor, mode := .AbsoluteX, cycles := 4, bytes := 3, pageCrossPenalty := true }
  | 0x59 => { name := "EOR", execute := eor, mode := .AbsoluteY, cycles := 4, bytes := 3, pageCrossPenalty := true }
  | 0x41 => { name := "EOR", execute := eor, mode := .IndexedIndirect, cycles := 6, bytes := 2, pageCrossPenalty := false }
  | 0x51 => { name := "EOR", execute := eor, mode := .IndirectIndexed, cycles := 5, bytes := 2, pageCrossPenalty := true }
  | 0xE6 => { name := "INC", execute := inc, mode := .ZeroPage, cycles := 5, bytes := 2, pageCrossPenalty := false }
  | 0xF6 => { name := "INC", execute := inc, mode := .ZeroPageX, cycles := 6, bytes := 2, pageCrossPenalty := false }
  | 0xEE => { name := "INC", execute := inc, mode := .Absolute, cycles := 6, bytes := 3, pageCrossPenalty := false }
  | 0xFE => { name := "INC", execute := inc, mode := .AbsoluteX, cycles := 7, bytes := 3, pageCrossPenalty := false }
  | 0xE8 => { name := "INX", execute := inx, mode := .Implied, cycles := 2, bytes := 1, pageCrossPenalty := false }
  | 0xC8 => { name := "INY", execute := iny, mode := .Implied, cycles := 2, bytes := 1, pageCrossPenalty := false }
  | 0x4C => { name := "JMP", execute := jmp, mode := .Absolute, cycles := 3, bytes := 3, pageCrossPenalty := false }
  | 0x6C => { name := "JMP", execute := jmp, mode := .Indirect, cycles := 5, bytes := 3, pageCrossPenalty := false }
  | 0x20 => { name := "JSR", execute := jsr, mode := .Absolute, cycles := 6, bytes := 3, pageCrossPenalty := false }
  | 0xA9 => { name := "LDA", execute := lda, mode := .Immediate, cycles := 2, bytes := 2, pageCrossPenalty := false }
  | 0xA5 => { name := "LDA", execute := lda, mode := .ZeroPage, cycles := 3, bytes := 2, pageCrossPenalty := false }
  | 0xB5 => { name := "LDA", execute := lda, mode := .ZeroPageX, cycles := 4, bytes := 2, pageCrossPenalty := false }
  | 0xAD => { name := "LDA", execute := lda, mode := .Absolute, cycles := 4, bytes := 3, pageCrossPenalty := false }
  | 0xBD => { name := "LDA", execute := lda, mode := .AbsoluteX, cycles := 4, bytes := 3, pageCrossPenalty := true }
  | 0xB9 => { name := "LDA", execute := lda, mode := .AbsoluteY, cycles := 4, bytes := 3, pageCrossPenalty := true }
  | 0xA1 => { name := "LDA", execute := lda, mode := .IndexedIndirect, cycles := 6, bytes := 2, pageCrossPenalty := false }
  | 0xB1 => { name := "LDA", execute := lda, mode := .IndirectIndexed, cycles := 5, bytes := 2, pageCrossPenalty := true }
  | 0xA2 => { name := "LDX", execute := ldx, mode := .Immediate, cycles := 2, bytes := 2, pageCrossPenalty := false }
  | 0xA6 => { name := "LDX", execute := ldx, mode := .ZeroPage, cycles := 3, bytes := 2, pageCrossPenalty := false }
  | 0xB6 => { name := "LDX", execute := ldx, mode := .ZeroPageY, cycles := 4, bytes := 2, pageCrossPenalty := false }
  | 0xAE => { name := "LDX", execute := ldx, mode := .Absolute, cycles := 4, bytes := 3, pageCrossPenalty := false }
  | 0xBE => { name := "LDX", execute := ldx, mode := .AbsoluteY, cycles := 4, bytes := 3, pageCrossPenalty := true }
  | 0xA0 => { name := "LDY", execute := ldy, mode := .Immediate, cycles := 2, bytes := 2, pageCrossPenalty := false }
  | 0xA4 => { name := "LDY", execute := ldy, mode := .ZeroPage, cycles := 3, bytes := 2, pageCrossPenalty := false }
  | 0xB4 => { name := "LDY", execute := ldy, mode := .ZeroPageX, cycles := 4, bytes := 2, pageCrossPenalty := false }
  | 0xAC => { name := "LDY", execute := ldy, mode := .Absolute, cycles := 4, bytes := 3, pageCrossPenalty := false }
  | 0xBC => { name := "LDY", execute := ldy, mode := .AbsoluteX, cycles := 4, bytes := 3, pageCrossPenalty := true }
  | 0x4A => { name := "LSR", execute := lsr, mode := .Accumulator, cycles := 2, bytes := 1, pageCrossPenalty := false }
  | 0x46 => { name := "LSR", execute := lsr, mode := .ZeroPage, cycles := 5, bytes := 2, pageCrossPenalty := false }
  | 0x56 => { name := "LSR", execute := lsr, mode := .ZeroPageX, cycles := 6, bytes := 2, pageCrossPenalty := false }
  | 0x4E => { name := "LSR", execute := lsr, mode := .Absolute, cycles := 6, bytes := 3, pageCrossPenalty := false }
  | 0x5E => { name := "LSR", execute := lsr, mode := .AbsoluteX, cycles := 7, bytes := 3, pageCrossPenalty := false }
  | 0xEA => { name := "NOP", execute := nop, mode := .Implied, cycles := 2, bytes := 1, pageCrossPenalty := false }
  | 0x09 => { name := "ORA", execute := ora, mode := .Immediate, cycles := 2, bytes := 2, pageCrossPenalty := false }
  | 0x05 => { name := "ORA", execute := ora, mode := .ZeroPage, cycles := 3, bytes := 2, pageCrossPenalty := false }
  | 0x15 => { name := "ORA", execute := ora, mode := .ZeroPageX, cycles := 4, bytes := 2, pageCrossPenalty := false }
  | 0x0D => { name := "ORA", execute := ora, mode := .Absolute, cycles := 4, bytes := 3, pageCrossPenalty := false }
  | 0x1D => { name := "ORA", execute := ora, mode := .AbsoluteX, cycles := 4, bytes := 3, pageCrossPenalty := true }
  | 0x19 => { name := "ORA", execute := ora, mode := .AbsoluteY, cycles := 4, bytes := 3, pageCrossPenalty := true }
  | 0x01 => { name := "ORA", execute := ora, mode := .IndexedIndirect, cycles := 6, bytes := 2, pageCrossPenalty := false }
  | 0x11 => { name := "ORA", execute := ora, mode := .IndirectIndexed, cycles := 5, bytes := 2, pageCrossPenalty := true }
  | 0x48 => { name := "PHA", execute := pha, mode := .Implied, cycles := 3, bytes := 1, pageCrossPenalty := false }
  | 0x08 => { name := "PHP", execute := php, mode := .Implied, cycles := 3, bytes := 1, pageCrossPenalty := false }
  | 0x68 => { name := "PLA", execute := pla, mode := .Implied, cycles := 4, bytes := 1, pageCrossPenalty := false }
  | 0x28 => { name := "PLP", execute := plp, mode := .Implied, cycles := 4, bytes := 1, pageCrossPenalty := false }
  | 0x2A => { name := "ROL", execute := rol, mode := .Accumulator, cycles := 2, bytes := 1, pageCrossPenalty := false }
  | 0x26 => { name := "ROL", execute := rol, mode := .ZeroPage, cycles := 5, bytes := 2, pageCrossPenalty := false }
  | 0x36 => { name := "ROL", execute := rol, mode := .ZeroPageX, cycles := 6, bytes := 2, pageCrossPenalty := false }
  | 0x2E => { name := "ROL", execute := rol, mode := .Absolute, cycles := 6, bytes := 3, pageCrossPenalty := false }
  | 0x3E => { name := "ROL", execute := rol, mode := .AbsoluteX, cycles := 7, bytes := 3, pageCrossPenalty := false }
  | 0x6A => { name := "ROR", execute := ror, mode := .Accumulator, cycles := 2, bytes := 1, pageCrossPenalty := false }
  | 0x66 => { name := "ROR", execute := ror, mode := .ZeroPage, cycles := 5, bytes := 2, pageCrossPenalty := false }
  | 0x76 => { name := "ROR", execute := ror, mode := .ZeroPageX, cycles := 6, bytes := 2, pageCrossPenalty := false }
  | 0x6E => { name := "ROR", execute := ror, mode := .Absolute, cycles := 6, bytes := 3, pageCrossPenalty := false }
  | 0x7E => { name := "ROR", execute := ror, mode := .AbsoluteX, cycles := 7, bytes := 3, pageCrossPenalty := false }
  | 0x40 => { name := "RTI", execute := rti, mode := .Implied, cycles := 6, bytes := 1, pageCrossPenalty := false }
  | 0x60 => { name := "RTS", execute := rts, mode := .Implied, cycles := 6, bytes := 1, pageCrossPenalty := false }
  | 0xE9 => { name := "SBC", execute := sbc, mode := .Immediate, cycles := 2, bytes := 2, pageCrossPenalty := false }
  | 0xE5 => { name := "SBC", execute := sbc, mode := .ZeroPage, cycles := 3, bytes := 2, pageCrossPenalty := false }
  | 0xF5 => { name := "SBC", execute := sbc, mode := .ZeroPageX, cycles := 4, bytes := 2, pageCrossPenalty := false }
  | 0xED => { name := "SBC", execute := sbc, mode := .Absolute, cycles := 4, bytes := 3, pageCrossPenalty := false }
  | 0xFD => { name := "SBC", execute := sbc, mode := .AbsoluteX, cycles := 4, bytes := 3, pageCrossPenalty := true }
  | 0xF9 => { name := "SBC", execute := sbc, mode := .AbsoluteY, cycles := 4, bytes := 3, pageCrossPenalty := true }
  | 0xE1 => { name := "SBC", execute := sbc, mode := .IndexedIndirect, cycles := 6, bytes := 2, pageCrossPenalty := false }
  | 0xF1 => { name := "SBC", execute := sbc, mode := .IndirectIndexed, cycles := 5, bytes := 2, pageCrossPenalty := true }
  | 0x38 => { name := "SEC", execute := sec, mode := .Implied, cycles := 2, bytes := 1, pageCrossPenalty := false }
  | 0xF8 => { name := "SED", execute := sed, mode := .Implied, cycles := 2, bytes := 1, pageCrossPenalty := false }
  | 0x78 => { name := "SEI", execute := sei, mode := .Implied, cycles := 2, bytes := 1, pageCrossPenalty := false }
  | 0x85 => { name := "STA", execute := sta, mode := .ZeroPage, cycles := 3, bytes := 2, pageCrossPenalty := false }
  | 0x95 => { name := "STA", execute := sta, mode := .ZeroPageX, cycles := 4, bytes := 2, pageCrossPenalty := false }
  | 0x8D => { name := "STA", execute := sta, mode := .Absolute, cycles := 4, bytes := 3, pageCrossPenalty := false }
  | 0x9D => { name := "STA", execute := sta, mode := .AbsoluteX, cycles := 5, bytes := 3, pageCrossPenalty := false }
  | 0x99 => { name := "STA", execute := sta, mode := .AbsoluteY, cycles := 5, bytes := 3, pageCrossPenalty := false }
  | 0x81 => { name := "STA", execute := sta, mode := .IndexedIndirect, cycles := 6, bytes := 2, pageCrossPenalty := false }
  | 0x91 => { name := "STA", execute := sta, mode := .IndirectIndexed, cycles := 6, bytes := 2, pageCrossPenalty := false }
  | 0x86 => { name := "STX", execute := stx, mode := .ZeroPage, cycles := 3, bytes := 2, pageCrossPenalty := false }
  | 0x96 => { name := "STX", execute := stx, mode := .ZeroPageY, cycles := 4, bytes := 2, pageCrossPenalty := false }
  | 0x8E => { name := "STX", execute := stx, mode := .Absolute, cycles := 4, bytes := 3, pageCrossPenalty := false }
  | 0x84 => { name := "STY", execute := sty, mode := .ZeroPage, cycles := 3, bytes := 2, pageCrossPenalty := false }
  | 0x94 => { name := "STY", execute := sty, mode := .ZeroPageX, cycles := 4, bytes := 2, pageCrossPenalty := false }
  | 0x8C => { name := "STY", execute := sty, mode := .Absolute, cycles := 4, bytes := 3, pageCrossPenalty := false }
  | 0xAA => { name := "TAX", execute := tax, mode := .Implied, cycles := 2, bytes := 1, pageCrossPenalty := false }
  | 0xA8 => { name := "TAY", execute := tay, mode := .Implied, cycles := 2, bytes := 1, pageCrossPenalty := false }
  | 0xBA => { name := "TSX", execute := tsx, mode := .Implied, cycles := 2, bytes := 1, pageCrossPenalty := false }
  | 0x8A => { name := "TXA", execute := txa, mode := .Implied, cycles := 2, bytes := 1, pageCrossPenalty := false }
  | 0x9A => { name := "TXS", execute := txs, mode := .Implied, cycles := 2, bytes := 1, pageCrossPenalty := false }
  | 0x98 => { name := "TYA", execute := tya, mode := .Implied, cycles := 2, bytes := 1, pageCrossPenalty := false }
  | _ => illegalNop

/-- `handleNMI` of cpu.ts. -/
def Machine.handleNMI (m : Machine) : Machine :=
  let m := m.pushWord m.cpu.pc
  let m := m.pushByte (jsAndNot (m.cpu.status ||| 0x20) 0x10)
  let m := { m with cpu := m.cpu.setFlag StatusFlag.InterruptDisable true }
  let m := { m with cpu := { m.cpu with pc := m.read 0xFFFA ||| (m.read 0xFFFB <<< 8) } }
  { m with cpu := { m.cpu with totalCycles := m.cpu.totalCycles + 7 } }

/-- `handleIRQ` of cpu.ts. -/
def Machine.handleIRQ (m : Machine) : Machine :=
  let m := m.pushWord m.cpu.pc
  let m := m.pushByte (jsAndNot (m.cpu.status ||| 0x20) 0x10)
  let m := { m with cpu := m.cpu.setFlag StatusFlag.InterruptDisable true }
  let m := { m with cpu := { m.cpu with pc := m.read 0xFFFE ||| (m.read 0xFFFF <<< 8) } }
  { m with cpu := { m.cpu with totalCycles := m.cpu.totalCycles + 7 } }

/-- The fetch-decode-execute tail of `step` in cpu.ts (the code run when no
stall tick and no interrupt is pending).  Returns the machine and the cycle
count returned by `step`. -/
def CPU.stepExecute (m : Machine) : Machine × Nat :=
  let opcode := m.read m.cpu.pc
  let m := { m with cpu := { m.cpu with pc := (m.cpu.pc + 1) &&& 0xFFFF } }
  let entry := opcodeTable opcode
  let (resolved, m) := CPU.resolveAddress m entry.mode
  let ctx : InstructionContext :=
    { machine := m, address := resolved.address, mode := entry.mode,
      pageCrossed := resolved.pageCrossed, extraCycles := 0 }
  let ctx := entry.execute ctx
  let cycles := entry.cycles + ctx.extraCycles +
    (if entry.pageCrossPenalty && resolved.pageCrossed then 1 else 0)
  ({ ctx.machine with cpu := { ctx.machine.cpu with
      totalCycles := ctx.machine.cpu.totalCycles + cycles } }, cycles)

/-- `step` of cpu.ts: stall tick, pending NMI, pending IRQ (when interrupts
are enabled), otherwise one instruction. -/
def CPU.step (m : Machine) : Machine × Nat :=
  if m.cpu.stallCyclesCount > 0 then
    ({ m with cpu := { m.cpu with
        stallCyclesCount := m.cpu.stallCyclesCount - 1,
        totalCycles := m.cpu.totalCycles + 1 } }, 1)
  else if m.cpu.nmiPending then
    let m := m.handleNMI
    ({ m with cpu := { m.cpu with nmiPending := false } }, 7)
  else if m.cpu.irqPending && !(m.cpu.getFlag StatusFlag.InterruptDisable) then
    (m.handleIRQ, 7)
  else
    CPU.stepExecute m

/-! ## PPU (src/ppu/ppu.ts, wired to the ppu.test.ts harness mapper)

The harness of ppu.test.ts supplies the mapper
`{ ppuRead: a => chrMem[a & 0x1FFF], ppuWrite: (a,v) => chrMem[a & 0x1FFF] = v,
getMirrorMode: () => MirrorMode.Vertical }` with an 8 KiB `chrMem`; the CHR
memory and the mirror mode are part of the embedded state.  Where JavaScript
subtraction can go negative (`scanline - y`), the source guards with
`diff >= 0`, which on naturals is the equivalent `y ≤ scanline` conjunct. -/

structure PPU where
  vram : Nat → Nat
  paletteRam : Nat → Nat
  oam : Nat → Nat
  secondaryOam : Nat → Nat
  frameBuffer : Nat → Nat
  frameComplete : Bool
  nmiPending : Bool
  scanline : Nat
  cycle : Nat
  oddFrame : Bool
  ppuCtrl : Nat
  ppuMask : Nat
  ppuStatus : Nat
  oamAddr : Nat
  v : Nat
  t : Nat
  x : Nat
  w : Bool
  dataBuffer : Nat
  latch : Nat
  bgShiftPatternLo : Nat
  bgShiftPatternHi : Nat
  bgShiftAttribLo : Nat
  bgShiftAttribHi : Nat
  bgNextTileId : Nat
  bgNextTileAttrib : Nat
  bgNextTileLsb : Nat
  bgNextTileMsb : Nat
  spriteCount : Nat
  spritePositions : Nat → Nat
  spriteAttributes : Nat → Nat
  spriteIndices : Nat → Nat
  spritePatternsLo : Nat → Nat
  spritePatternsHi : Nat → Nat
  sprite0HitPossible : Bool
  sprite0Rendering : Bool
  lastA12 : Nat
  chrMem : Nat → Nat
  mirrorMode : MirrorMode

/-- `MIRROR_LOOKUP` of ppu.ts: logical nametable index to physical page. -/
def mirrorLookup (mode : MirrorMode) (table : Nat) : Nat :=
  match mode with
  | .Horizontal => [0, 0, 1, 1].getD table 0
  | .Vertical => [0, 1, 0, 1].getD table 0
  | .SingleScreenLower => [0, 0, 0, 0].getD table 0
  | .SingleScreenUpper => [1, 1, 1, 1].getD table 0
  | .FourScreen => [0, 1, 2, 3].getD table 0

/-- `mirrorAddress` of ppu.ts. -/
def PPU.mirrorAddress (s : PPU) (address : Nat) : Nat :=
  let addr := address &&& 0x0FFF
  let table := (addr >>> 10) &&& 3
  let offset := addr &&& 0x3FF
  mirrorLookup s.mirrorMode table * 0x400 + offset

/-- `paletteIndex` of ppu.ts: palette RAM index with the
$3F10/$3F14/$3F18/$3F1C aliases folded onto $3F00/$3F04/$3F08/$3F0C. -/
def PPU.paletteIndex (address : Nat) : Nat :=
  let index := address &&& 0x1F
  if 16 ≤ index ∧ index &&& 0x03 = 0 then index - 16 else index

/-- `ppuReadInternal` of ppu.ts.  On pattern-table reads the source fires
`mapper.scanlineTick` on an A12 rising edge; the harness mapper has no
`scanlineTick`, so only `lastA12` is updated. -/
def PPU.ppuReadInternal (s : PPU) (address : Nat) : Nat × PPU :=
  let addr := address &&& 0x3FFF
  if addr < 0x2000 then
    let a12 := (addr >>> 12) &&& 1
    let s := { s with lastA12 := a12 }
    (s.chrMem (addr &&& 0x1FFF), s)
  else if addr < 0x3F00 then
    (s.vram (s.mirrorAddress addr), s)
  else
    (s.paletteRam (PPU.paletteIndex addr), s)

/-- `ppuWriteInternal` of ppu.ts. -/
def PPU.ppuWriteInternal (s : PPU) (address value : Nat) : PPU :=
  let addr := address &&& 0x3FFF
  if addr < 0x2000 then
    { s with chrMem := fun i => if i = (addr &&& 0x1FFF) then value else s.chrMem i }
  else if addr < 0x3F00 then
    { s with vram := fun i => if i = s.mirrorAddress addr then value else s.vram i }
  else
    { s with paletteRam := fun i => if i = PPU.paletteIndex addr then value else s.paletteRam i }

/-- `incrementX` of ppu.ts. -/
def PPU.incrementX (s : PPU) : PPU :=
  if s.v &&& 0x001F = 31 then
    let s := { s with v := jsAndNot s.v 0x001F }
    { s with v := s.v ^^^ 0x0400 }
  else
    { s with v := s.v + 1 }

/-- `incrementY` of ppu.ts. -/
def PPU.incrementY (s : PPU) : PPU :=
  if s.v &&& 0x7000 ≠ 0x7000 then
    { s with v := s.v + 0x1000 }
  else
    let s := { s with v := jsAndNot s.v 0x7000 }
    let coarseY := (s.v &&& 0x03E0) >>> 5
    let coarseY' :=
      if coarseY = 29 then 0
      else if coarseY = 31 then 0
      else coarseY + 1
    let s :=
      if coarseY = 29 then { s with v := s.v ^^^ 0x0800 } else s
    { s with v := jsAndNot s.v 0x03E0 ||| (coarseY' <<< 5) }

/-- `updateShifters` of ppu.ts; JS `<<=` is a 32-bit shift. -/
def PPU.updateShifters (s : PPU) : PPU :=
  { s with
    bgShiftPatternLo := (s.bgShiftPatternLo <<< 1) &&& (2 ^ 32 - 1)
    bgShiftPatternHi := (s.bgShiftPatternHi <<< 1) &&& (2 ^ 32 - 1)
    bgShiftAttribLo := (s.bgShiftAttribLo <<< 1) &&& (2 ^ 32 - 1)
    bgShiftAttribHi := (s.bgShiftAttribHi <<< 1) &&& (2 ^ 32 - 1) }

/-- `loadBackgroundShifters` of ppu.ts. -/
def PPU.loadBackgroundShifters (s : PPU) : PPU :=
  { s with
    bgShiftPatternLo := (s.bgShiftPatternLo &&& 0xFF00) ||| s.bgNextTileLsb
    bgShiftPatternHi := (s.bgShiftPatternHi &&& 0xFF00) ||| s.bgNextTileMsb
    bgShiftAttribLo := (s.bgShiftAttribLo &&& 0xFF00) |||
      (if s.bgNextTileAttrib &&& 0x01 ≠ 0 then 0xFF else 0x00)
    bgShiftAttribHi := (s.bgShiftAttribHi &&& 0xFF00) |||
      (if s.bgNextTileAttrib &&& 0x02 ≠ 0 then 0xFF else 0x00) }

/-- `evaluateSprites` of ppu.ts. -/
def PPU.evaluateSprites (s : PPU) : PPU :=
  let s := { s with spriteCount := 0, sprite0HitPossible := false, sprite0Rendering := false }
  let spriteHeight := if s.ppuCtrl &&& 0x20 ≠ 0 then 16 else 8
  let s := (List.range 64).foldl (fun (s : PPU) (i : Nat) =>
    if decide (s.spriteCount < 8) then
      let y := s.oam (i * 4)
      if decide (y ≤ s.scanline) && decide (s.scanline - y < spriteHeight) then
        let s := if decide (i = 0) then { s with sprite0HitPossible := true } else s
        let s := { s with spriteIndices := fun j => if j = s.spriteCount then i else s.spriteIndices j }
        let s := { s with secondaryOam := fun j =>
          if j = s.spriteCount * 4 then s.oam (i * 4)
          else if j = s.spriteCount * 4 + 1 then s.oam (i * 4 + 1)
          else if j = s.spriteCount * 4 + 2 then s.oam (i * 4 + 2)
          else if j = s.spriteCount * 4 + 3 then s.oam (i * 4 + 3)
          else s.secondaryOam j }
        { s with spriteCount := s.spriteCount + 1 }
      else s
    else s) s
  if decide (8 ≤ s.spriteCount) then
    let overflow := (List.range 64).foldl (fun (found : Bool) i =>
      if found then found
      else
        let y := s.oam (i * 4)
        if decide (y ≤ s.scanline) && decide (s.scanline - y < spriteHeight) then
          !((List.range s.spriteCount).any fun j => decide (s.spriteIndices j = i))
        else false) false
    if overflow then { s with ppuStatus := s.ppuStatus ||| 0x20 } else s
  else s

/-- `reverseByte` of ppu.ts. -/
def PPU.reverseByte (b : Nat) : Nat :=
  let b := ((b &&& 0xF0) >>> 4) ||| ((b &&& 0x0F) <<< 4)
  let b := ((b &&& 0xCC) >>> 2) ||| ((b &&& 0x33) <<< 2)
  ((b &&& 0xAA) >>> 1) ||| ((b &&& 0x55) <<< 1)

/-- `loadSpritesForScanline` of ppu.ts. -/
def PPU.loadSpritesForScanline (s : PPU) : PPU :=
  let spriteHeight := if s.ppuCtrl &&& 0x20 ≠ 0 then 16 else 8
  (List.range s.spriteCount).foldl (fun (s : PPU) (i : Nat) =>
    let spriteY := s.secondaryOam (i * 4)
    let tileIndex := s.secondaryOam (i * 4 + 1)
    let attributes := s.secondaryOam (i * 4 + 2)
    let spriteX := s.secondaryOam (i * 4 + 3)
    let s := { s with spritePositions := fun j => if j = i then spriteX else s.spritePositions j }
    let s := { s with spriteAttributes := fun j => if j = i then attributes else s.spriteAttributes j }
    let s := if i = 0 ∧ s.sprite0HitPossible then { s with sprite0Rendering := true } else s
    let row := s.scanline - spriteY
    let flipV := attributes &&& 0x80 ≠ 0
    let flipH := attributes &&& 0x40 ≠ 0
    let patternAddr :=
      if spriteHeight = 8 then
        let row := if flipV then 7 - row else row
        let spritePatternTable := if s.ppuCtrl &&& 0x08 ≠ 0 then 0x1000 else 0x0000
        spritePatternTable + tileIndex * 16 + row
      else
        let row := if flipV then 15 - row else row
        let table := if tileIndex &&& 0x01 ≠ 0 then 0x1000 else 0x0000
        let tile := tileIndex &&& 0xFE
        if row < 8 then table + tile * 16 + row
        else table + (tile + 1) * 16 + (row - 8)
    let (lo, s) := s.ppuReadInternal patternAddr
    let (hi, s) := s.ppuReadInternal (patternAddr + 8)
    let lo := if flipH then PPU.reverseByte lo else lo
    let hi := if flipH then PPU.reverseByte hi else hi
    let s := { s with spritePatternsLo := fun j => if j = i then lo else s.spritePatternsLo j }
    { s with spritePatternsHi := fun j => if j = i then hi else s.spritePatternsHi j }) s

/-- `renderPixel` of ppu.ts. -/
def PPU.renderPixel (s : PPU) : PPU :=
  let pixelX := s.cycle - 1
  let bgPair :=
    if decide (s.ppuMask &&& 0x08 ≠ 0) then
      if decide (s.ppuMask &&& 0x02 ≠ 0) || decide (8 ≤ pixelX) then
        let mux := 0x8000 >>> s.x
        let p0 := if decide (s.bgShiftPatternLo &&& mux ≠ 0) then 1 else 0
        let p1 := if decide (s.bgShiftPatternHi &&& mux ≠ 0) then 1 else 0
        let a0 := if decide (s.bgShiftAttribLo &&& mux ≠ 0) then 1 else 0
        let a1 := if decide (s.bgShiftAttribHi &&& mux ≠ 0) then 1 else 0
        ((p1 <<< 1) ||| p0, (a1 <<< 1) ||| a0)
      else (0, 0)
    else (0, 0)
  let bgPixel := bgPair.1
  let bgPalette := bgPair.2
  let sprHit :=
    if decide (s.ppuMask &&& 0x10 ≠ 0) then
      if decide (s.ppuMask &&& 0x04 ≠ 0) || decide (8 ≤ pixelX) then
        (List.range s.spriteCount).foldl (fun (acc : Option (Nat × Nat × Bool × Bool)) i =>
          match acc with
          | some _ => acc
          | none =>
            if decide (s.spritePositions i ≤ pixelX) && decide (pixelX - s.spritePositions i < 8) then
              let bitIdx := 7 - (pixelX - s.spritePositions i)
              let p0 := (s.spritePatternsLo i >>> bitIdx) &&& 1
              let p1 := (s.spritePatternsHi i >>> bitIdx) &&& 1
              let pixel := (p1 <<< 1) ||| p0
              if decide (pixel ≠ 0) then
                some (pixel, (s.spriteAttributes i &&& 0x03) + 4,
                  decide (s.spriteAttributes i &&& 0x20 ≠ 0),
                  decide (i = 0) && s.sprite0Rendering)
              else none
            else none) none
      else none
    else none
  let sprPixel := match sprHit with | some r => r.1 | none => 0
  let sprPalette := match sprHit with | some r => r.2.1 | none => 0
  let sprPriority := match sprHit with | some r => r.2.2.1 | none => false
  let spriteZero := match sprHit with | some r => r.2.2.2 | none => false
  let s :=
    if spriteZero && decide (bgPixel ≠ 0) && decide (sprPixel ≠ 0) && decide (pixelX ≠ 255) then
      if decide (s.ppuMask &&& 0x18 = 0x18) then
        if !(decide (s.ppuMask &&& 0x06 ≠ 0x06) && decide (pixelX < 8)) then
          { s with ppuStatus := s.ppuStatus ||| 0x40 }
        else s
      else s
    else s
  let paletteSel :=
    if decide (bgPixel = 0) && decide (sprPixel = 0) then 0
    else if decide (bgPixel = 0) && decide (sprPixel ≠ 0) then sprPalette * 4 + sprPixel
    else if decide (bgPixel ≠ 0) && decide (sprPixel = 0) then bgPalette * 4 + bgPixel
    else if sprPriority then bgPalette * 4 + bgPixel
    else sprPalette * 4 + sprPixel
  let colorIndex := s.paletteRam (PPU.paletteIndex (0x3F00 + paletteSel)) &&& 0x3F
  { s with frameBuffer := fun i =>
      if i = s.scanline * 256 + pixelX then colorIndex else s.frameBuffer i }

/-- `writeCtrl` of ppu.ts (with the NMI enable edge). -/
def PPU.writeCtrl (s : PPU) (value : Nat) : PPU :=
  let prevNmi := s.ppuCtrl &&& 0x80
  let s := { s with ppuCtrl := value }
  let s := { s with t := (s.t &&& 0xF3FF) ||| ((value &&& 0x03) <<< 10) }
  if prevNmi = 0 ∧ value &&& 0x80 ≠ 0 ∧ s.ppuStatus &&& 0x80 ≠ 0 then
    { s with nmiPending := true }
  else s

/-- `writeMask` of ppu.ts. -/
def PPU.writeMask (s : PPU) (value : Nat) : PPU :=
  { s with ppuMask := value }

/-- `readStatus` of ppu.ts: result plus the two side effects. -/
def PPU.readStatus (s : PPU) : Nat × PPU :=
  let result := (s.ppuStatus &&& 0xE0) ||| (s.latch &&& 0x1F)
  (result, { s with ppuStatus := jsAndNot s.ppuStatus 0x80, w := false })

/-- `writeOamAddr` of ppu.ts. -/
def PPU.writeOamAddr (s : PPU) (value : Nat) : PPU :=
  { s with oamAddr := value }

/-- `readOamData` of ppu.ts (no increment). -/
def PPU.readOamData (s : PPU) : Nat := s.oam s.oamAddr

/-- `writeOamData` of ppu.ts (store, then increment with 8-bit wrap). -/
def PPU.writeOamData (s : PPU) (value : Nat) : PPU :=
  let s := { s with oam := fun j => if j = s.oamAddr then value else s.oam j }
  { s with oamAddr := (s.oamAddr + 1) &&& 0xFF }

/-- `writeScroll` of ppu.ts (double write through `w`). -/
def PPU.writeScroll (s : PPU) (value : Nat) : PPU :=
  if !s.w then
    let s := { s with t := (s.t &&& 0xFFE0) ||| (value >>> 3) }
    { s with x := value &&& 0x07, w := true }
  else
    let s := { s with t := (s.t &&& 0x8C1F) ||| ((value &&& 0x07) <<< 12) ||| ((value &&& 0xF8) <<< 2) }
    { s with w := false }

/-- `writeAddr` of ppu.ts (double write through `w`). -/
def PPU.writeAddr (s : PPU) (value : Nat) : PPU :=
  if !s.w then
    let s := { s with t := (s.t &&& 0x00FF) ||| ((value &&& 0x3F) <<< 8) }
    { s with w := true }
  else
    let s := { s with t := (s.t &&& 0xFF00) ||| value }
    { s with v := s.t, w := false }

/-- `readData` of ppu.ts (buffered VRAM read, immediate palette read). -/
def PPU.readData (s : PPU) : Nat × PPU :=
  let (d, s) := s.ppuReadInternal s.v
  let (data, s) :=
    if s.v &&& 0x3FFF < 0x3F00 then
      (s.dataBuffer, { s with dataBuffer := d })
    else
      let (buffered, s) := s.ppuReadInternal (s.v - 0x1000)
      (d, { s with dataBuffer := buffered })
  let s := { s with v := (s.v + (if s.ppuCtrl &&& 0x04 ≠ 0 then 32 else 1)) &&& 0x7FFF }
  (data, s)

/-- `writeData` of ppu.ts. -/
def PPU.writeData (s : PPU) (value : Nat) : PPU :=
  let s := s.ppuWriteInternal s.v value
  { s with v := (s.v + (if s.ppuCtrl &&& 0x04 ≠ 0 then 32 else 1)) &&& 0x7FFF }

/-- `readRegister` of ppu.ts; write-only registers return the I/O latch. -/
def PPU.readRegister (s : PPU) (register : Nat) : Nat × PPU :=
  match register with
  | 0x2000 => (s.latch, s)
  | 0x2001 => (s.latch, s)
  | 0x2002 => s.readStatus
  | 0x2003 => (s.latch, s)
  | 0x2004 => (s.readOamData, s)
  | 0x2005 => (s.latch, s)
  | 0x2006 => (s.latch, s)
  | 0x2007 => s.readData
  | _ => (0, s)

/-- `writeRegister` of ppu.ts; every write records the I/O latch first. -/
def PPU.writeRegister (s : PPU) (register value : Nat) : PPU :=
  let s := { s with latch := value }
  match register with
  | 0x2000 => s.writeCtrl value
  | 0x2001 => s.writeMask value
  | 0x2003 => s.writeOamAddr value
  | 0x2004 => s.writeOamData value
  | 0x2005 => s.writeScroll value
  | 0x2006 => s.writeAddr value
  | 0x2007 => s.writeData value
  | _ => s

/-- `oamDmaWrite` of ppu.ts: 256 bytes into OAM starting at OAMADDR with
8-bit wrap; OAMADDR itself is not modified. -/
def PPU.oamDmaWrite (s : PPU) (data : Nat → Nat) : PPU :=
  (List.range 256).foldl (fun (s : PPU) (i : Nat) =>
    { s with oam := fun j => if j = (s.oamAddr + i) &&& 0xFF then data i else s.oam j }) s

/-- `step` of ppu.ts: advance one dot. -/
def PPU.step (s : PPU) : PPU :=
  let renderingEnabled := decide (s.ppuMask &&& 0x18 ≠ 0)
  let preLine := decide (s.scanline = 261)
  let visibleLine := decide (s.scanline < 240)
  let renderLine := preLine || visibleLine
  let visibleCycle := decide (1 ≤ s.cycle) && decide (s.cycle ≤ 256)
  let preFetchCycle := decide (321 ≤ s.cycle) && decide (s.cycle ≤ 336)
  let fetchCycle := visibleCycle || preFetchCycle
  let s : PPU :=
    if renderingEnabled then
      let s : PPU :=
        if renderLine && fetchCycle then
          let s : PPU := s.updateShifters
          match (s.cycle - 1) % 8 with
          | 0 =>
            let s : PPU := s.loadBackgroundShifters
            let (d, s) := s.ppuReadInternal (0x2000 ||| (s.v &&& 0x0FFF))
            { s with bgNextTileId := d }
          | 2 =>
            let attribAddr := 0x23C0 ||| (s.v &&& 0x0C00) ||| ((s.v >>> 4) &&& 0x38) |||
              ((s.v >>> 2) &&& 0x07)
            let (d, s) := s.ppuReadInternal attribAddr
            let d := if (s.v >>> 5) &&& 0x02 ≠ 0 then d >>> 4 else d
            let d := if s.v &&& 0x02 ≠ 0 then d >>> 2 else d
            { s with bgNextTileAttrib := d &&& 0x03 }
          | 4 =>
            let bgPatternTable := if s.ppuCtrl &&& 0x10 ≠ 0 then 0x1000 else 0x0000
            let fineY := (s.v >>> 12) &&& 0x07
            let (d, s) := s.ppuReadInternal (bgPatternTable + s.bgNextTileId * 16 + fineY)
            { s with bgNextTileLsb := d }
          | 6 =>
            let bgPatternTable := if s.ppuCtrl &&& 0x10 ≠ 0 then 0x1000 else 0x0000
            let fineY := (s.v >>> 12) &&& 0x07
            let (d, s) := s.ppuReadInternal (bgPatternTable + s.bgNextTileId * 16 + fineY + 8)
            { s with bgNextTileMsb := d }
          | 7 => s.incrementX
          | _ => s
        else s
      let s : PPU := if renderLine && decide (s.cycle = 256) then s.incrementY else s
      let s : PPU :=
        if renderLine && decide (s.cycle = 257) then
          let s : PPU := s.loadBackgroundShifters
          { s with v := jsAndNot s.v 0x041F ||| (s.t &&& 0x041F) }
        else s
      let s : PPU :=
        if preLine && decide (280 ≤ s.cycle) && decide (s.cycle ≤ 304) then
          { s with v := jsAndNot s.v 0x7BE0 ||| (s.t &&& 0x7BE0) }
        else s
      let s : PPU := if decide (s.cycle = 257) && visibleLine then s.evaluateSprites else s
      let s : PPU := if decide (s.cycle = 321) && visibleLine then s.loadSpritesForScanline else s
      s
    else s
  let s : PPU :=
    if visibleLine && visibleCycle && renderingEnabled then
      s.renderPixel
    else if visibleLine && visibleCycle then
      { s with frameBuffer := fun i =>
          if i = s.scanline * 256 + (s.cycle - 1) then s.paletteRam 0 else s.frameBuffer i }
    else s
  let s : PPU :=
    if decide (s.scanline = 241) && decide (s.cycle = 1) then
      let s : PPU := { s with ppuStatus := s.ppuStatus ||| 0x80 }
      let s : PPU := if decide (s.ppuCtrl &&& 0x80 ≠ 0) then { s with nmiPending := true } else s
      { s with frameComplete := true }
    else s
  let s : PPU :=
    if preLine && decide (s.cycle = 1) then
      let s : PPU := { s with ppuStatus := jsAndNot s.ppuStatus 0x80 }
      let s : PPU := { s with ppuStatus := jsAndNot s.ppuStatus 0x40 }
      let s : PPU := { s with ppuStatus := jsAndNot s.ppuStatus 0x20 }
      { s with nmiPending := false }
    else s
  let s : PPU := { s with cycle := s.cycle + 1 }
  let s : PPU :=
    if decide (s.cycle > 340) then
      let s : PPU := { s with cycle := 0, scanline := s.scanline + 1 }
      if decide (s.scanline > 261) then
        { s with scanline := 0, oddFrame := !s.oddFrame, frameComplete := false }
      else s
    else s
  if preLine && decide (s.cycle = 340) && s.oddFrame && renderingEnabled then
    { s with cycle := 0, scanline := 0, oddFrame := !s.oddFrame }
  else s

/-- The PPU as constructed by `new PPU()` plus the ppu.test.ts harness
mapper (zeroed 8 KiB CHR memory, vertical mirroring). -/
def ppuInit : PPU :=
  { vram := fun _ => 0
    paletteRam := fun _ => 0
    oam := fun _ => 0
    secondaryOam := fun _ => 0
    frameBuffer := fun _ => 0
    frameComplete := false
    nmiPending := false
    scanline := 0
    cycle := 0
    oddFrame := false
    ppuCtrl := 0
    ppuMask := 0
    ppuStatus := 0
    oamAddr := 0
    v := 0
    t := 0
    x := 0
    w := false
    dataBuffer := 0
    latch := 0
    bgShiftPatternLo := 0
    bgShiftPatternHi := 0
    bgShiftAttribLo := 0
    bgShiftAttribHi := 0
    bgNextTileId := 0
    bgNextTileAttrib := 0
    bgNextTileLsb := 0
    bgNextTileMsb := 0
    spriteCount := 0
    spritePositions := fun _ => 0
    spriteAttributes := fun _ => 0
    spriteIndices := fun _ => 0
    spritePatternsLo := fun _ => 0
    spritePatternsHi := fun _ => 0
    sprite0HitPossible := false
    sprite0Rendering := false
    lastA12 := 0
    chrMem := fun _ => 0
    mirrorMode := .Vertical }

/-! ## Concrete fixtures used by the theorems below -/

/-- The error message `createMapper` throws for mapper number 1. -/
def unsupportedMapper1Msg : String := "Unsupported mapper: 1"

/-- CPU register file directly after `reset()` with the given reset PC
(cpu.ts `reset`): A=X=Y=0, SP=0xFD, P=0x24, 7 cycles, nothing pending. -/
def resetCPU (pc : Nat) : CPU :=
  { a := 0, x := 0, y := 0, sp := 0xFD, pc := pc, status := 0x24,
    totalCycles := 7, stallCyclesCount := 0, nmiPending := false, irqPending := false }

/-- Machine used to state the ADC claim: accumulator `A`, carry flag `c`,
and a memory whose every cell holds the operand byte `b`. -/
def adcMachine (A : Nat) (c : Bool) (b : Nat) : Machine :=
  { cpu := { resetCPU 0x8000 with a := A, status := if c then 0x25 else 0x24 }
    mem := fun _ => b }

/-- Instruction context for executing ADC on `adcMachine` (immediate mode,
operand at address 0). -/
def adcCtx (A : Nat) (c : Bool) (b : Nat) : InstructionContext :=
  { machine := adcMachine A c b, address := 0, mode := .Immediate,
    pageCrossed := false, extraCycles := 0 }

/-- The JMP-indirect-bug memory of cpu.test.ts: `0x6C 0xFF 0x10` at 0x8000,
pointer bytes 0x34 at 0x10FF and 0x12 at 0x1000, decoy 0x56 at 0x1100. -/
def jmpBugMem : Nat → Nat := fun a =>
  if a = 0x8000 then 0x6C
  else if a = 0x8001 then 0xFF
  else if a = 0x8002 then 0x10
  else if a = 0x10FF then 0x34
  else if a = 0x1100 then 0x56
  else if a = 0x1000 then 0x12
  else 0

/-- Machine about to execute the JMP-indirect-bug instruction. -/
def jmpBugMachine : Machine := { cpu := resetCPU 0x8000, mem := jmpBugMem }

/-- A machine with three stall cycles queued. -/
def stallMachine : Machine :=
  { cpu := { resetCPU 0x8000 with stallCyclesCount := 3 }, mem := fun _ => 0 }

/-- A machine with both an NMI and an IRQ pending (NMI must win). -/
def nmiMachine : Machine :=
  { cpu := { resetCPU 0x8000 with nmiPending := true, irqPending := true }, mem := fun _ => 0 }

/-- A machine with an IRQ pending and InterruptDisable clear. -/
def irqMachine : Machine :=
  { cpu := { resetCPU 0x8000 with irqPending := true, status := 0x20 }, mem := fun _ => 0 }

/-- A quiescent machine: no stall, no pending interrupt. -/
def execMachine : Machine := { cpu := resetCPU 0x8000, mem := fun _ => 0 }

/-- The PPU after writing address 0x3F00 through $2006 and storing 0xFF
through $2007: palette entry 0 now holds the non-6-bit value 0xFF, and
rendering is disabled (PPUMASK = 0). -/
def ppuPalFF : PPU :=
  ((ppuInit.writeRegister 0x2006 0x3F).writeRegister 0x2006 0x00).writeRegister 0x2007 0xFF

/-- The MMC3 as constructed for the IRQ witness (rom contents irrelevant to
the IRQ counter). -/
def mmc3Witness : Mapper4 := createMapper4 mapper4RomInfo

/-- The status word after one `setFlag`-style update: set or clear bits
`f` in `s` (the clear branch is JS `status &= ~flag`). Proof-side
abbreviation for reasoning about `CPU.setFlag` chains. -/
def statusSet (s f : Nat) (v : Bool) : Nat := if v then s ||| f else jsAndNot s f

/-! ## General bit-level helper lemmas -/

theorem and255_eq_mod (x : Nat) : x &&& 255 = x % 256 := by
  have h := Nat.and_pow_two_sub_one_eq_mod x 8
  norm_num at h
  exact h

theorem and_two_pow_ne_zero_iff (x k : Nat) : x &&& 2 ^ k ≠ 0 ↔ x.testBit k := by
  rw [Nat.and_two_pow]
  cases h : x.testBit k <;> simp

theorem and_and_128_ne_zero_iff (x y : Nat) :
    x &&& y &&& 128 ≠ 0 ↔ (x.testBit 7 ∧ y.testBit 7) := by
  have h : (128 : Nat) = 2 ^ 7 := by norm_num
  rw [h, and_two_pow_ne_zero_iff, Nat.testBit_and, Bool.and_eq_true]

/-! ## C1: createMapper accepts only mappers 0 and 4 — mapper 1 is rejected -/

/-- C1: the spec says `createMapper` succeeds exactly on mapper numbers
{0, 1, 4}, and the repo's own mapper1.test.ts expects
`createMapper` to construct mapper 1; but the `switch` in mapper.ts only
handles 0 and 4, so a mapper-1 cartridge descriptor is rejected with
`Unsupported mapper: 1` while mappers 0 and 4 construct successfully. -/
theorem createMapper_rejects_mapper1 :
    createMapper mapper1RomInfo = Except.error unsupportedMapper1Msg
    ∧ (∃ m, createMapper mapper0RomInfo = Except.ok m)
    ∧ (∃ m, createMapper mapper4RomInfo = Except.ok m) :=
  ⟨rfl, ⟨_, rfl⟩, ⟨_, rfl⟩⟩

/-! ## C5: the rendering-disabled pixel path stores palette entry 0 unmasked -/

/-- C5: the spec says every frame-buffer byte is a 6-bit palette index
(bits 7 and 6 zero), including pixels emitted while rendering is disabled.
`renderPixel` masks with `& 0x3F`, but the rendering-disabled path of
`step` copies `paletteRam[0]` without the mask: after writing 0xFF to
palette address $3F00 via $2006/$2007 and stepping to the first visible
dot with rendering disabled, the frame buffer holds the byte 0xFF, whose
bits 7 and 6 are set. -/
theorem step_disabled_pixel_unmasked :
    (PPU.step (PPU.step ppuPalFF)).frameBuffer 0 = 0xFF
    ∧ (PPU.step (PPU.step ppuPalFF)).frameBuffer 0 &&& 0xC0 ≠ 0 := by
  decide

/-! ## C6: palette alias pairs access the same palette-RAM cell -/

/-- C6: for every byte value and every alias pair
($3F10,$3F00), ($3F14,$3F04), ($3F18,$3F08), ($3F1C,$3F0C), writing through
`ppuWriteInternal` at one address and reading through `ppuReadInternal` at
the other returns the written value, in both directions. -/
theorem palette_alias_roundtrip (s : PPU) (val : Nat) (p : Fin 4) :
    ((s.ppuWriteInternal (0x3F10 + 4 * p.val) val).ppuReadInternal (0x3F00 + 4 * p.val)).1 = val
    ∧ ((s.ppuWriteInternal (0x3F00 + 4 * p.val) val).ppuReadInternal (0x3F10 + 4 * p.val)).1 = val := by
  fin_cases p <;> exact ⟨rfl, rfl⟩

/-! ## C8: PPUSTATUS read — value, side effects, and nothing else -/

/-- C8: reading register $2002 returns `(status & 0xE0) | (latch & 0x1F)`,
clears only STATUS bit 7, resets the write toggle `w`, and leaves every
other field of the PPU (in particular STATUS bits 6 and 5) unchanged. -/
theorem readStatus_spec (s : PPU) :
    s.readRegister 0x2002 =
      ((s.ppuStatus &&& 0xE0) ||| (s.latch &&& 0x1F),
        { s with ppuStatus := jsAndNot s.ppuStatus 0x80, w := false })
    ∧ (s.readRegister 0x2002).2.ppuStatus &&& 0x40 = s.ppuStatus &&& 0x40
    ∧ (s.readRegister 0x2002).2.ppuStatus &&& 0x20 = s.ppuStatus &&& 0x20
    ∧ (s.readRegister 0x2002).2.ppuStatus &&& 0x80 = 0 := by
  have h2 : (s.readRegister 0x2002).2.ppuStatus = jsAndNot s.ppuStatus 0x80 := rfl
  refine ⟨rfl, ?_, ?_, ?_⟩ <;> rw [h2, jsAndNot, Nat.and_assoc]
  · rw [show ((2 ^ 32 - 1) ^^^ 0x80 : Nat) &&& 0x40 = 0x40 from rfl]
  · rw [show ((2 ^ 32 - 1) ^^^ 0x80 : Nat) &&& 0x20 = 0x20 from rfl]
  · rw [show ((2 ^ 32 - 1) ^^^ 0x80 : Nat) &&& 0x80 = 0 from rfl, Nat.and_zero]

/-! ## C10: OAM DMA copies 256 bytes with 8-bit wrap and preserves OAMADDR -/

theorem oamDma_fold_spec (s : PPU) (data : Nat → Nat) (n : Nat) (hn : n ≤ 256) :
    ((List.range n).foldl (fun (t : PPU) (i : Nat) =>
        { t with oam := fun j => if j = (t.oamAddr + i) &&& 0xFF then data i else t.oam j }) s).oamAddr
        = s.oamAddr
    ∧ ∀ i, i < n →
        ((List.range n).foldl (fun (t : PPU) (i : Nat) =>
          { t with oam := fun j => if j = (t.oamAddr + i) &&& 0xFF then data i else t.oam j }) s).oam
          ((s.oamAddr + i) % 256) = data i := by
  induction n with
  | zero => simp
  | succ n ih =>
    obtain ⟨ha, ho⟩ := ih (by omega)
    rw [List.range_succ, List.foldl_append, List.foldl_cons, List.foldl_nil]
    refine ⟨by simpa using ha, ?_⟩
    intro i hi
    simp only
    rw [ha, and255_eq_mod]
    by_cases hieq : i = n
    · subst hieq
      simp
    · have hne : (s.oamAddr + i) % 256 ≠ (s.oamAddr + n) % 256 := by omega
      simp only [hne, if_neg, ne_eq, not_false_iff]
      exact ho i (by omega)

/-- C10: `oamDmaWrite` copies byte `i` into `OAM[(OAMADDR + i) mod 256]`
for every `i < 256` and leaves OAMADDR unchanged, so a subsequent OAMDATA
write through $2004 stores at the same OAM address as before the DMA. -/
theorem oamDmaWrite_spec (s : PPU) (data : Nat → Nat) :
    (∀ i : Fin 256, (s.oamDmaWrite data).oam ((s.oamAddr + i.val) % 256) = data i.val)
    ∧ (s.oamDmaWrite data).oamAddr = s.oamAddr
    ∧ ∀ val : Nat, ((s.oamDmaWrite data).writeRegister 0x2004 val).oam s.oamAddr = val := by
  obtain ⟨ha, ho⟩ := oamDma_fold_spec s data 256 (by omega)
  refine ⟨fun i => ho i.val i.isLt, ha, fun val => ?_⟩
  have ha2 : (s.oamDmaWrite data).oamAddr = s.oamAddr := ha
  have hw : ((s.oamDmaWrite data).writeRegister 0x2004 val).oam =
      fun j => if j = (s.oamDmaWrite data).oamAddr then val else (s.oamDmaWrite data).oam j := rfl
  rw [hw]
  simp only [ha2]
  simp

/-! ## C7: controller strobe/shift behaviour -/

theorem readStateN_strobe (c : Controller) (k : Nat) : (c.readStateN k).strobe = c.strobe := by
  induction k with
  | zero => rfl
  | succ k ih =>
    show (((c.readStateN k).read).2).strobe = c.strobe
    rw [← ih]
    unfold Controller.read Controller.reloadShiftRegister
    split <;> rfl

theorem readStateN_add (c : Controller) (a b : Nat) :
    c.readStateN (a + b) = (c.readStateN a).readStateN b := by
  induction b with
  | zero => rfl
  | succ b ih =>
    show ((c.readStateN (a + b)).read).2 = _
    rw [ih]
    rfl

theorem readOutN_add (c : Controller) (a b : Nat) :
    c.readOutN (a + b) = (c.readStateN a).readOutN b := by
  unfold Controller.readOutN
  rw [readStateN_add]

theorem readStateN_ff_fields (d : Controller) (hst : d.strobe = false)
    (hsr : d.shiftRegister = 0xFF) (k : Nat) :
    (d.readStateN k).strobe = false ∧ (d.readStateN k).shiftRegister = 0xFF := by
  induction k with
  | zero => exact ⟨hst, hsr⟩
  | succ k ih =>
    obtain ⟨h1, h2⟩ := ih
    constructor
    · show (((d.readStateN k).read).2).strobe = false
      simp [Controller.read, h1, h2]
    · show (((d.readStateN k).read).2).shiftRegister = 0xFF
      simp [Controller.read, h1, h2]

theorem readOutN_ff (d : Controller) (hst : d.strobe = false)
    (hsr : d.shiftRegister = 0xFF) (k : Nat) : d.readOutN k = 1 := by
  obtain ⟨h1, h2⟩ := readStateN_ff_fields d hst hsr k
  show (((d.readStateN k)).read).1 = 1
  simp [Controller.read, h1, h2, Nat.and_one_is_mod]

theorem readStateN_strobeHigh (b : Nat → Bool) (k : Nat) :
    ((⟨b, reloadValue b, true⟩ : Controller).readStateN k) = ⟨b, reloadValue b, true⟩ := by
  induction k with
  | zero => rfl
  | succ k ih =>
    show (((⟨b, reloadValue b, true⟩ : Controller).readStateN k).read).2 = _
    rw [ih]
    simp [Controller.read, Controller.reloadShiftRegister]

/-- C7: after strobing 1 then 0 with button state S (eight booleans in
order A, B, Select, Start, Up, Down, Left, Right), the first eight reads
return the bits of S in order, every read from the ninth on returns 1, and
while the strobe is held high every read returns the current A button. -/
theorem controller_read_sequence (b0 b1 b2 b3 b4 b5 b6 b7 : Bool) (sr0 : Nat) (st0 : Bool) :
    (∀ i : Fin 8,
      (Controller.write (Controller.write ⟨buttons8 b0 b1 b2 b3 b4 b5 b6 b7, sr0, st0⟩ 1) 0).readOutN i.val
        = if buttons8 b0 b1 b2 b3 b4 b5 b6 b7 i.val then 1 else 0)
    ∧ (∀ k : Nat,
      (Controller.write (Controller.write ⟨buttons8 b0 b1 b2 b3 b4 b5 b6 b7, sr0, st0⟩ 1) 0).readOutN (8 + k)
        = 1)
    ∧ (∀ j : Nat,
      (Controller.write ⟨buttons8 b0 b1 b2 b3 b4 b5 b6 b7, sr0, st0⟩ 1).readOutN j
        = if b0 then 1 else 0) := by
  have hw : Controller.write (Controller.write ⟨buttons8 b0 b1 b2 b3 b4 b5 b6 b7, sr0, st0⟩ 1) 0
      = ⟨buttons8 b0 b1 b2 b3 b4 b5 b6 b7, reloadValue (buttons8 b0 b1 b2 b3 b4 b5 b6 b7), false⟩ := rfl
  have hw1 : Controller.write ⟨buttons8 b0 b1 b2 b3 b4 b5 b6 b7, sr0, st0⟩ 1
      = ⟨buttons8 b0 b1 b2 b3 b4 b5 b6 b7, reloadValue (buttons8 b0 b1 b2 b3 b4 b5 b6 b7), true⟩ := rfl
  refine ⟨?_, ?_, ?_⟩
  · rw [hw]
    clear hw hw1
    revert b0 b1 b2 b3 b4 b5 b6 b7
    decide
  · intro k
    rw [hw, readOutN_add]
    apply readOutN_ff
    · rw [readStateN_strobe]
    · clear hw hw1
      revert b0 b1 b2 b3 b4 b5 b6 b7
      decide
  · intro j
    rw [hw1]
    show (((⟨buttons8 b0 b1 b2 b3 b4 b5 b6 b7,
        reloadValue (buttons8 b0 b1 b2 b3 b4 b5 b6 b7), true⟩ : Controller).readStateN j).read).1
        = if b0 then 1 else 0
    rw [readStateN_strobeHigh]
    clear hw hw1
    revert b0 b1 b2 b3 b4 b5 b6 b7
    decide

/-! ## C4: MMC3 scanline IRQ timing -/

theorem scanlineTick_active_mono (m : Mapper4) (h : m.irqActive = true) :
    m.scanlineTick.irqActive = true := by
  simp only [Mapper4.scanlineTick]
  split <;> split <;> simp [h]

theorem scanlineTickN_active_mono (m : Mapper4) (k : Nat) (h : m.irqActive = true) :
    (m.scanlineTickN k).irqActive = true := by
  induction k with
  | zero => exact h
  | succ k ih => exact scanlineTick_active_mono _ ih

theorem scanlineTickN_add (m : Mapper4) (a b : Nat) :
    m.scanlineTickN (a + b) = (m.scanlineTickN a).scanlineTickN b := by
  induction b with
  | zero => rfl
  | succ b ih =>
    show (m.scanlineTickN (a + b)).scanlineTick = _
    rw [ih]
    rfl

theorem scanlineTickN_front (m : Mapper4) (k : Nat) :
    m.scanlineTickN (k + 1) = (m.scanlineTick).scanlineTickN k := by
  have h : k + 1 = 1 + k := by omega
  rw [h, scanlineTickN_add]
  rfl

theorem scanlineTickN_countdown (m : Mapper4) (j : Nat)
    (hp : m.irqReloadPending = false) (he : m.irqEnabled = true) (ha : m.irqActive = false)
    (hc : 0 < m.irqCounter) (hj : j ≤ m.irqCounter) :
    (m.scanlineTickN j).irqCounter = m.irqCounter - j
    ∧ (m.scanlineTickN j).irqReloadPending = false
    ∧ (m.scanlineTickN j).irqEnabled = true
    ∧ (m.scanlineTickN j).irqActive = decide (j = m.irqCounter) := by
  induction j with
  | zero =>
    refine ⟨rfl, hp, he, ?_⟩
    show m.irqActive = decide (0 = m.irqCounter)
    have hne : ¬ (0 = m.irqCounter) := by omega
    simp [ha, hne]
  | succ j ih =>
    obtain ⟨h1, h2, h3, h4⟩ := ih (by omega)
    have hjc : j < m.irqCounter := by omega
    have h4f : (m.scanlineTickN j).irqActive = false := by
      rw [h4]
      simp
      omega
    show ((m.scanlineTickN j).scanlineTick.irqCounter = m.irqCounter - (j + 1))
      ∧ ((m.scanlineTickN j).scanlineTick.irqReloadPending = false)
      ∧ ((m.scanlineTickN j).scanlineTick.irqEnabled = true)
      ∧ ((m.scanlineTickN j).scanlineTick.irqActive = decide (j + 1 = m.irqCounter))
    have hcnd : ¬ ((m.scanlineTickN j).irqCounter = 0 ∨ (m.scanlineTickN j).irqReloadPending = true) := by
      rw [h1, h2]
      simp
      omega
    simp only [Mapper4.scanlineTick, hcnd, if_neg, not_false_iff]
    by_cases hz : m.irqCounter - j - 1 = 0
    · have hz2 : j + 1 = m.irqCounter := by omega
      simp [h1, h2, h3, h4f, hz, hz2]
    · have hz2 : ¬ (j + 1 = m.irqCounter) := by omega
      simp [h1, h2, h3, h4f, hz, hz2]
      omega

/-- C4: with latch L written to $C000, a reload via $C001 and IRQ enabled
via $E001, `irqPending()` becomes true exactly on the (L+1)-st scanline
tick (the first tick reloads the counter to L, the next L ticks decrement,
and IRQ-active is asserted when the counter reaches 0) and is false on
every earlier tick. -/
theorem mmc3_irq_fires_after_latch_ticks (L : Fin 256) (m0 : Mapper4)
    (h0 : m0.irqActive = false) (k : Nat) :
    ((((m0.cpuWrite 0xC000 L.val).cpuWrite 0xC001 0).cpuWrite 0xE001 0).scanlineTickN k).irqPending
      = decide (L.val + 1 ≤ k) := by
  have hlatch : (((m0.cpuWrite 0xC000 L.val).cpuWrite 0xC001 0).cpuWrite 0xE001 0).irqLatch = L.val := by
    simp [Mapper4.cpuWrite, Nat.and_one_is_mod]
  have hcnt : (((m0.cpuWrite 0xC000 L.val).cpuWrite 0xC001 0).cpuWrite 0xE001 0).irqCounter = 0 := by
    simp [Mapper4.cpuWrite, Nat.and_one_is_mod]
  have hpend : (((m0.cpuWrite 0xC000 L.val).cpuWrite 0xC001 0).cpuWrite 0xE001 0).irqReloadPending = true := by
    simp [Mapper4.cpuWrite, Nat.and_one_is_mod]
  have hen : (((m0.cpuWrite 0xC000 L.val).cpuWrite 0xC001 0).cpuWrite 0xE001 0).irqEnabled = true := by
    simp [Mapper4.cpuWrite, Nat.and_one_is_mod]
  have hact : (((m0.cpuWrite 0xC000 L.val).cpuWrite 0xC001 0).cpuWrite 0xE001 0).irqActive = false := by
    simp [Mapper4.cpuWrite, Nat.and_one_is_mod, h0]
  set m1 := ((m0.cpuWrite 0xC000 L.val).cpuWrite 0xC001 0).cpuWrite 0xE001 0 with hm1
  unfold Mapper4.irqPending
  cases k with
  | zero =>
    have : ¬ (L.val + 1 ≤ 0) := by omega
    simp [Mapper4.scanlineTickN, hact, this]
  | succ j =>
    rw [scanlineTickN_front]
    have hs1c : m1.scanlineTick.irqCounter = L.val := by
      simp only [Mapper4.scanlineTick]
      simp [hcnt, hpend, hlatch]
      split <;> rfl
    have hs1p : m1.scanlineTick.irqReloadPending = false := by
      simp only [Mapper4.scanlineTick]
      simp [hcnt, hpend, hlatch]
      split <;> rfl
    have hs1e : m1.scanlineTick.irqEnabled = true := by
      simp only [Mapper4.scanlineTick]
      simp [hcnt, hpend, hen]
      split <;> rfl
    by_cases hL : L.val = 0
    · have hs1a : m1.scanlineTick.irqActive = true := by
        simp only [Mapper4.scanlineTick]
        simp [hcnt, hpend, hlatch, hen, hL]
      rw [scanlineTickN_active_mono _ _ hs1a]
      have : L.val + 1 ≤ j + 1 := by omega
      simp [this]
    · have hs1a : m1.scanlineTick.irqActive = false := by
        simp only [Mapper4.scanlineTick]
        simp [hcnt, hpend, hlatch, hen, hact, hL]
      by_cases hjL : j ≤ L.val
      · obtain ⟨_, _, _, h4⟩ := scanlineTickN_countdown m1.scanlineTick j hs1p hs1e hs1a
          (by rw [hs1c]; omega) (by rw [hs1c]; omega)
        rw [h4, hs1c]
        have : (j = L.val) ↔ (L.val + 1 ≤ j + 1) := by omega
        simp [this]
      · have hsplit : L.val + (j - L.val) = j := by omega
        rw [← hsplit, scanlineTickN_add]
        obtain ⟨_, _, _, h4⟩ := scanlineTickN_countdown m1.scanlineTick L.val hs1p hs1e hs1a
          (by rw [hs1c]; omega) (by rw [hs1c])
        have hLa : (m1.scanlineTick.scanlineTickN L.val).irqActive = true := by
          rw [h4, hs1c]
          simp
        rw [scanlineTickN_active_mono _ _ hLa]
        have : L.val + 1 ≤ L.val + (j - L.val) + 1 := by omega
        simp [this]

/-- C4 witness: a fresh MMC3 with latch 3 raises its IRQ on the fourth
scanline tick after the reload. -/
theorem mmc3_irq_fires_after_latch_ticks_witness :
    ((((mmc3Witness.cpuWrite 0xC000 3).cpuWrite 0xC001 0).cpuWrite 0xE001 0).scanlineTickN 4).irqPending
      = true := by
  have h := mmc3_irq_fires_after_latch_ticks ⟨3, by omega⟩ mmc3Witness rfl 4
  simpa using h



/-! ## C2: ADC semantics -/

theorem setFlag_a (cp : CPU) (f : Nat) (v : Bool) : (cp.setFlag f v).a = cp.a := by
  unfold CPU.setFlag; split <;> rfl

theorem setFlag_status (cp : CPU) (f : Nat) (v : Bool) :
    (cp.setFlag f v).status = statusSet cp.status f v := by
  cases v <;> rfl

theorem updateZN_a (cp : CPU) (x : Nat) : (cp.updateZN x).a = cp.a := by
  unfold CPU.updateZN; rw [setFlag_a, setFlag_a]

theorem updateZN_status (cp : CPU) (x : Nat) :
    (cp.updateZN x).status
      = statusSet (statusSet cp.status StatusFlag.Zero (decide (x &&& 0xFF = 0)))
          StatusFlag.Negative (decide (x &&& 0x80 ≠ 0)) := by
  unfold CPU.updateZN
  rw [setFlag_status, setFlag_status]

theorem withA_status (cp : CPU) (v : Nat) : ({ cp with a := v } : CPU).status = cp.status := rfl

theorem withA_a (cp : CPU) (v : Nat) : ({ cp with a := v } : CPU).a = v := rfl

theorem getFlag_pow (cp : CPU) (f j : Nat) (hf : f = 2 ^ j) :
    cp.getFlag f = cp.status.testBit j := by
  subst hf
  unfold CPU.getFlag
  cases h : cp.status.testBit j
  · have h2 := (and_two_pow_ne_zero_iff cp.status j)
    simp [h] at h2
    simp [h2]
  · have h2 := (and_two_pow_ne_zero_iff cp.status j)
    simp [h] at h2
    simp [h2]

theorem testBit_statusSet_pow (s : Nat) (v : Bool) (j k : Nat) (hk : k < 32) :
    (statusSet s (2 ^ j) v).testBit k = if k = j then v else s.testBit k := by
  have h32 : Nat.testBit 4294967295 k = true := by
    rw [show (4294967295 : Nat) = 2 ^ 32 - 1 by norm_num, Nat.testBit_two_pow_sub_one]
    simpa using hk
  by_cases hkj : k = j
  · subst hkj
    cases v
    · simp [statusSet, jsAndNot, Nat.testBit_and, Nat.testBit_xor,
        Nat.testBit_two_pow_sub_one, Nat.testBit_two_pow, hk, h32]
    · simp [statusSet, Nat.testBit_or, Nat.testBit_two_pow]
  · cases v
    · simp [statusSet, jsAndNot, Nat.testBit_and, Nat.testBit_xor,
        Nat.testBit_two_pow_sub_one, Nat.testBit_two_pow, hk, hkj, Ne.symm hkj, h32]
    · simp [statusSet, Nat.testBit_or, Nat.testBit_two_pow, hkj, Ne.symm hkj]

theorem testBit_statusSet_carry (s : Nat) (v : Bool) (k : Nat) (hk : k < 32) :
    (statusSet s StatusFlag.Carry v).testBit k = if k = 0 then v else s.testBit k := by
  rw [show StatusFlag.Carry = (2 : Nat) ^ 0 from rfl]
  exact testBit_statusSet_pow s v 0 k hk

theorem testBit_statusSet_zero (s : Nat) (v : Bool) (k : Nat) (hk : k < 32) :
    (statusSet s StatusFlag.Zero v).testBit k = if k = 1 then v else s.testBit k := by
  rw [show StatusFlag.Zero = (2 : Nat) ^ 1 from rfl]
  exact testBit_statusSet_pow s v 1 k hk

theorem testBit_statusSet_overflow (s : Nat) (v : Bool) (k : Nat) (hk : k < 32) :
    (statusSet s StatusFlag.Overflow v).testBit k = if k = 6 then v else s.testBit k := by
  rw [show StatusFlag.Overflow = (2 : Nat) ^ 6 from rfl]
  exact testBit_statusSet_pow s v 6 k hk

theorem testBit_statusSet_negative (s : Nat) (v : Bool) (k : Nat) (hk : k < 32) :
    (statusSet s StatusFlag.Negative v).testBit k = if k = 7 then v else s.testBit k := by
  rw [show StatusFlag.Negative = (2 : Nat) ^ 7 from rfl]
  exact testBit_statusSet_pow s v 7 k hk

theorem testBit_statusSet_carry_hit (s : Nat) (v : Bool) :
    (statusSet s StatusFlag.Carry v).testBit 0 = v := by
  rw [testBit_statusSet_carry s v 0 (by omega)]
  simp

theorem testBit_statusSet_carry_miss (s : Nat) (v : Bool) (k : Nat) (hk : k < 32) (hne : k ≠ 0) :
    (statusSet s StatusFlag.Carry v).testBit k = s.testBit k := by
  rw [testBit_statusSet_carry s v k hk]
  simp [hne]

theorem testBit_statusSet_zero_hit (s : Nat) (v : Bool) :
    (statusSet s StatusFlag.Zero v).testBit 1 = v := by
  rw [testBit_statusSet_zero s v 1 (by omega)]
  simp

theorem testBit_statusSet_zero_miss (s : Nat) (v : Bool) (k : Nat) (hk : k < 32) (hne : k ≠ 1) :
    (statusSet s StatusFlag.Zero v).testBit k = s.testBit k := by
  rw [testBit_statusSet_zero s v k hk]
  simp [hne]

theorem testBit_statusSet_overflow_hit (s : Nat) (v : Bool) :
    (statusSet s StatusFlag.Overflow v).testBit 6 = v := by
  rw [testBit_statusSet_overflow s v 6 (by omega)]
  simp

theorem testBit_statusSet_overflow_miss (s : Nat) (v : Bool) (k : Nat) (hk : k < 32) (hne : k ≠ 6) :
    (statusSet s StatusFlag.Overflow v).testBit k = s.testBit k := by
  rw [testBit_statusSet_overflow s v k hk]
  simp [hne]

theorem testBit_statusSet_negative_hit (s : Nat) (v : Bool) :
    (statusSet s StatusFlag.Negative v).testBit 7 = v := by
  rw [testBit_statusSet_negative s v 7 (by omega)]
  simp

theorem testBit_statusSet_negative_miss (s : Nat) (v : Bool) (k : Nat) (hk : k < 32) (hne : k ≠ 7) :
    (statusSet s StatusFlag.Negative v).testBit k = s.testBit k := by
  rw [testBit_statusSet_negative s v k hk]
  simp [hne]

theorem overflow_mod_iff (a b s : Nat) :
    (a ^^^ s % 256) &&& (b ^^^ s % 256) &&& 128 ≠ 0
      ↔ (a ^^^ s) &&& (b ^^^ s) &&& 128 ≠ 0 := by
  rw [and_and_128_ne_zero_iff, and_and_128_ne_zero_iff]
  have h : ∀ x : Nat, (x ^^^ s % 256).testBit 7 = (x ^^^ s).testBit 7 := by
    intro x
    rw [Nat.testBit_xor, Nat.testBit_xor]
    congr 1
    rw [show (256 : Nat) = 2 ^ 8 from rfl, Nat.testBit_mod_two_pow]
    simp
  rw [h, h]

/-- C2: ADC semantics. For every accumulator byte `A`, operand byte `b`,
and initial carry `c`, executing `adc` leaves the accumulator at
`(A + b + c) mod 256`, sets Carry iff `A + b + c > 255`, sets Overflow iff
`(A XOR result) AND (b XOR result) AND 0x80` is non-zero, and sets Zero and
Negative from the 8-bit result. -/
theorem adc_semantics (A b : Fin 256) (c : Bool) :
    (adc (adcCtx A.val c b.val)).machine.cpu.a
        = (A.val + b.val + (if c then 1 else 0)) % 256
    ∧ (adc (adcCtx A.val c b.val)).machine.cpu.getFlag StatusFlag.Carry
        = decide (255 < A.val + b.val + (if c then 1 else 0))
    ∧ (adc (adcCtx A.val c b.val)).machine.cpu.getFlag StatusFlag.Overflow
        = decide ((A.val ^^^ (A.val + b.val + (if c then 1 else 0)) % 256)
            &&& (b.val ^^^ (A.val + b.val + (if c then 1 else 0)) % 256) &&& 0x80 ≠ 0)
    ∧ (adc (adcCtx A.val c b.val)).machine.cpu.getFlag StatusFlag.Zero
        = decide ((A.val + b.val + (if c then 1 else 0)) % 256 = 0)
    ∧ (adc (adcCtx A.val c b.val)).machine.cpu.getFlag StatusFlag.Negative
        = decide ((A.val + b.val + (if c then 1 else 0)) % 256 &&& 0x80 ≠ 0) := by
  have key : (adc (adcCtx A.val c b.val)).machine.cpu
      = CPU.updateZN
          { (((adcMachine A.val c b.val).cpu.setFlag StatusFlag.Carry
                (decide (0xFF < A.val + b.val + (if c then 1 else 0)))).setFlag
              StatusFlag.Overflow
              (decide ((A.val ^^^ (A.val + b.val + (if c then 1 else 0)))
                  &&& (b.val ^^^ (A.val + b.val + (if c then 1 else 0))) &&& 0x80 ≠ 0)))
            with a := (A.val + b.val + (if c then 1 else 0)) &&& 0xFF }
          ((A.val + b.val + (if c then 1 else 0)) &&& 0xFF) := by
    have hflag : (adcCtx A.val c b.val).machine.cpu.getFlag StatusFlag.Carry = c := by
      cases c
      · rw [show (adcCtx A.val false b.val).machine.cpu.getFlag StatusFlag.Carry
            = decide ((36 : Nat) &&& 1 ≠ 0) from rfl, Nat.and_one_is_mod]
        rfl
      · rw [show (adcCtx A.val true b.val).machine.cpu.getFlag StatusFlag.Carry
            = decide ((37 : Nat) &&& 1 ≠ 0) from rfl, Nat.and_one_is_mod]
        rfl
    simp only [adc]
    rw [hflag]
    rfl
  rw [key]
  refine ⟨?_, ?_, ?_, ?_, ?_⟩
  · rw [updateZN_a, withA_a, and255_eq_mod]
  · rw [getFlag_pow _ StatusFlag.Carry 0 rfl, updateZN_status, withA_status, setFlag_status,
      setFlag_status, testBit_statusSet_negative_miss _ _ _ (by omega) (by omega),
      testBit_statusSet_zero_miss _ _ _ (by omega) (by omega),
      testBit_statusSet_overflow_miss _ _ _ (by omega) (by omega), testBit_statusSet_carry_hit]
  · rw [getFlag_pow _ StatusFlag.Overflow 6 rfl, updateZN_status, withA_status, setFlag_status,
      setFlag_status, testBit_statusSet_negative_miss _ _ _ (by omega) (by omega),
      testBit_statusSet_zero_miss _ _ _ (by omega) (by omega), testBit_statusSet_overflow_hit]
    exact (decide_eq_decide.mpr (overflow_mod_iff A.val b.val _)).symm
  · rw [getFlag_pow _ StatusFlag.Zero 1 rfl, updateZN_status, withA_status, setFlag_status,
      setFlag_status, testBit_statusSet_negative_miss _ _ _ (by omega) (by omega),
      testBit_statusSet_zero_hit, Nat.and_assoc,
      show (0xFF &&& 0xFF : Nat) = 0xFF from rfl, and255_eq_mod]
  · rw [getFlag_pow _ StatusFlag.Negative 7 rfl, updateZN_status, withA_status, setFlag_status,
      setFlag_status, testBit_statusSet_negative_hit, and255_eq_mod]


/-! ## C3: CPU.step event priority -/

/-- C3: `CPU.step` handles exactly one event with fixed priority. If
stall-cycles are pending it only decrements them, bumps total cycles and
returns 1; otherwise a pending NMI is serviced (clearing the pending flag,
returning 7) even if an IRQ is also pending; otherwise a pending IRQ with
InterruptDisable clear is serviced (returning 7, with the IRQ-pending flag
remaining asserted); otherwise one instruction is executed. -/
theorem cpu_step_event_priority (m : Machine) :
    (m.cpu.stallCyclesCount > 0 →
      CPU.step m = ({ m with cpu := { m.cpu with
          stallCyclesCount := m.cpu.stallCyclesCount - 1,
          totalCycles := m.cpu.totalCycles + 1 } }, 1))
    ∧ (m.cpu.stallCyclesCount = 0 → m.cpu.nmiPending = true →
      CPU.step m = ({ m.handleNMI with cpu := { (m.handleNMI).cpu with nmiPending := false } }, 7))
    ∧ (m.cpu.stallCyclesCount = 0 → m.cpu.nmiPending = false → m.cpu.irqPending = true →
        m.cpu.getFlag StatusFlag.InterruptDisable = false →
      CPU.step m = (m.handleIRQ, 7) ∧ (m.handleIRQ).cpu.irqPending = true)
    ∧ (m.cpu.stallCyclesCount = 0 → m.cpu.nmiPending = false →
        (m.cpu.irqPending = false ∨ m.cpu.getFlag StatusFlag.InterruptDisable = true) →
      CPU.step m = CPU.stepExecute m) := by
  refine ⟨?_, ?_, ?_, ?_⟩
  · intro h
    unfold CPU.step
    rw [if_pos h]
  · intro h1 h2
    unfold CPU.step
    rw [if_neg (by omega : ¬ m.cpu.stallCyclesCount > 0), if_pos h2]
  · intro h1 h2 h3 h4
    constructor
    · unfold CPU.step
      rw [if_neg (by omega : ¬ m.cpu.stallCyclesCount > 0),
        if_neg (by simp [h2] : ¬ m.cpu.nmiPending = true),
        if_pos (by simp [h3, h4] : (m.cpu.irqPending && !(m.cpu.getFlag StatusFlag.InterruptDisable)) = true)]
    · simp [Machine.handleIRQ, Machine.pushWord, Machine.pushByte, Machine.write, CPU.setFlag, h3]
  · intro h1 h2 h3
    unfold CPU.step
    rw [if_neg (by omega : ¬ m.cpu.stallCyclesCount > 0),
      if_neg (by simp [h2] : ¬ m.cpu.nmiPending = true)]
    rcases h3 with h3 | h3
    · rw [if_neg (by simp [h3] : ¬ (m.cpu.irqPending && !(m.cpu.getFlag StatusFlag.InterruptDisable)) = true)]
    · rw [if_neg (by simp [h3] : ¬ (m.cpu.irqPending && !(m.cpu.getFlag StatusFlag.InterruptDisable)) = true)]

theorem cpu_step_event_priority_witness :
    CPU.step stallMachine = ({ stallMachine with cpu := { stallMachine.cpu with
        stallCyclesCount := stallMachine.cpu.stallCyclesCount - 1,
        totalCycles := stallMachine.cpu.totalCycles + 1 } }, 1)
    ∧ CPU.step nmiMachine
        = ({ nmiMachine.handleNMI with cpu := { (nmiMachine.handleNMI).cpu with nmiPending := false } }, 7)
    ∧ (CPU.step irqMachine = (irqMachine.handleIRQ, 7)
        ∧ (irqMachine.handleIRQ).cpu.irqPending = true)
    ∧ CPU.step execMachine = CPU.stepExecute execMachine :=
  ⟨(cpu_step_event_priority stallMachine).1 (by decide),
   (cpu_step_event_priority nmiMachine).2.1 (by decide) (by decide),
   (cpu_step_event_priority irqMachine).2.2.1 (by decide) (by decide) (by decide) (by decide),
   (cpu_step_event_priority execMachine).2.2.2 (by decide) (by decide) (Or.inl (by decide))⟩


/-! ## C9: the JMP-indirect page-crossing bug -/

theorem jmp_bug_bits : ∀ H : Fin 256,
    (((H.val <<< 8) ||| 0xFF) &&& 0xFF00 = H.val <<< 8)
    ∧ ((((H.val <<< 8) ||| 0xFF) + 1) &&& 0xFF = 0) := by decide

/-- C9: when the indirect pointer's low byte is 0xFF, `resolveAddress`
fetches the target's high byte from the start of the same page instead of
the next page (the documented 6502 bug); concretely, executing
`0x6C 0xFF 0x10` with memory[0x10FF]=0x34, memory[0x1100]=0x56 and
memory[0x1000]=0x12 leaves PC = 0x1234, not 0x5634. -/
theorem jmp_indirect_page_bug :
    (∀ (m : Machine) (H : Nat), H < 256 →
      m.read m.cpu.pc = 0xFF → m.read ((m.cpu.pc + 1) &&& 0xFFFF) = H →
      (CPU.resolveAddress m .Indirect).1.address
        = ((m.read (H <<< 8)) <<< 8) ||| m.read ((H <<< 8) ||| 0xFF))
    ∧ (CPU.step jmpBugMachine).1.cpu.pc = 0x1234 := by
  constructor
  · intro m H hH h1 h2
    obtain ⟨hb1, hb2⟩ := jmp_bug_bits ⟨H, hH⟩
    simp only [CPU.resolveAddress, Machine.read] at h1 h2 ⊢
    rw [h1, h2, hb1, hb2, Nat.or_zero]
  · decide

theorem jmp_indirect_page_bug_witness :
    (CPU.resolveAddress
        { jmpBugMachine with cpu := { jmpBugMachine.cpu with pc := 0x8001 } } .Indirect).1.address
      = 0x1234 := by
  have h := (jmp_indirect_page_bug).1
    { jmpBugMachine with cpu := { jmpBugMachine.cpu with pc := 0x8001 } }
    0x10 (by decide) (by decide) (by decide)
  rw [h]
  decide

end NES
